import Mathlib

/-!
Shallow embedding of `paypal.go` (package `paypal`), a thin client for the
PayPal NVP API, together with proofs of the specification claims.

Modelling conventions:
* Go `float64` amounts are modelled as exact rationals (`ℚ`).
* Go `url.Values` (a key → values map; here every call site uses `Add`,
  which appends, and `Get`, which returns the first value or `""`) is
  modelled as an association list of key/value pairs in insertion order.
* The HTTP transport in `PerformRequest` is abstracted as an explicit
  outcome parameter: the POST may fail, the body read may fail, or a body
  is obtained whose `url.ParseQuery` result is given as an `Except`.
* `fmt.Sprintf("%.2f", x)` is modelled by rounding `100·x` half-to-even
  and rendering with two decimal digits, matching Go's `strconv`
  fixed-precision formatting on the exact value.
-/

namespace GoPayPal

/-! ### Decimal rendering (model of Go `fmt.Sprintf("%d", _)`) -/

/-- The decimal digit character for `d < 10` (`'0'` has code 48). -/
def digitChar (d : Nat) : Char := Char.ofNat (48 + d)

/-- Fuel-driven decimal digit list of a natural number, most significant
digit first.  `fuel > n` suffices for full evaluation. -/
def natDigitsF : Nat → Nat → List Char
  | 0, _ => []
  | fuel + 1, n =>
    if n < 10 then [digitChar n]
    else natDigitsF fuel (n / 10) ++ [digitChar (n % 10)]

/-- Decimal representation of a natural number. -/
def natRepr (n : Nat) : String := ⟨natDigitsF (n + 1) n⟩

/-- Decimal representation of a Go `int` (model of `fmt.Sprintf("%d", _)`). -/
def intRepr (z : Int) : String :=
  if z < 0 then "-" ++ natRepr z.natAbs else natRepr z.natAbs

/-- Value of a digit list, most significant digit first. -/
def digitsVal (cs : List Char) : Nat :=
  cs.foldl (fun a c => 10 * a + (c.toNat - 48)) 0

/-! ### Indexed field keys (model of `fmt.Sprintf("%s%d", base, i)`) -/

/-- The key of the `i`-th indexed NVP field, e.g. `L_PAYMENTREQUEST_0_NAME3`. -/
def ikey (base : String) (i : Nat) : String := base ++ natRepr i

/-! ### `url.Values` model -/

/-- Model of Go's `url.Values` as an association list in insertion order.
Every call site of the package uses only `Set` (on a fresh map), `Add`
(append) and `Get` (first value for a key, or `""`). -/
abbrev Values := List (String × String)

/-- Model of `url.Values.Get`: first value bound to `k`, or `""`. -/
def Values.get : Values → String → String
  | [], _ => ""
  | p :: vs, k => if p.1 = k then p.2 else Values.get vs k

/-- Model of `url.Values.Add`: appends a key/value pair. -/
def Values.add (vs : Values) (k v : String) : Values := vs ++ [(k, v)]

/-- Model of `url.Values.Set`: replaces all bindings of `k` by the single
pair `(k, v)` (used only on fresh maps in this package). -/
def Values.set (vs : Values) (k v : String) : Values :=
  vs.filter (fun p => p.1 != k) ++ [(k, v)]

/-- Number of pairs bound to key `k`. -/
def Values.countKey : Values → String → Nat
  | [], _ => 0
  | p :: vs, k => (if p.1 = k then 1 else 0) + Values.countKey vs k

/-- Whether some pair is bound to key `k`. -/
def Values.containsKey : Values → String → Bool
  | [], _ => false
  | p :: vs, k => p.1 = k || Values.containsKey vs k

/-! ### Data model (structures and constants of `paypal.go`) -/

def NVP_SANDBOX_URL : String := "https://api-3t.sandbox.paypal.com/nvp"
def NVP_PRODUCTION_URL : String := "https://api-3t.paypal.com/nvp"
def CHECKOUT_SANDBOX_URL : String := "https://www.sandbox.paypal.com/cgi-bin/webscr"
def CHECKOUT_PRODUCTION_URL : String := "https://www.paypal.com/cgi-bin/webscr"
def NVP_VERSION : String := "94"

/-- `PayPalClient` (the `*http.Client` handle is abstracted away; the
transport is passed explicitly to `PerformRequest`). -/
structure PayPalClient where
  username : String
  password : String
  signature : String
  usesSandbox : Bool
deriving DecidableEq, Repr

structure PayPalOrder where
  SubTotal : ℚ
  Shipping : ℚ
  Discount : ℚ
  Total : ℚ
  CurrencyCode : String
  ReturnUrl : String
  CancelUrl : String
deriving DecidableEq, Repr

structure PayPalDigitalGood where
  Name : String
  Amount : ℚ
  Quantity : Int
deriving DecidableEq, Repr

structure PayPalGood where
  Id : String
  Name : String
  Amount : ℚ
  Quantity : Int
deriving DecidableEq, Repr

structure PayPalResponse where
  Ack : String
  CorrelationId : String
  Timestamp : String
  Version : String
  Build : String
  Token : String
  Values : Values
  usedSandbox : Bool
deriving DecidableEq, Repr

structure PayPalPaymentResponse where
  TransactionId : String
  Status : String
  /-- Go field `Type` (`Type` is a Lean keyword). -/
  Type' : String
  Fee : ℚ
  Amount : ℚ
  Currency : String
  ReasonCode : String
deriving DecidableEq, Repr

structure PayPalError where
  Ack : String
  ErrorCode : String
  ShortMessage : String
  LongMessage : String
  SeverityCode : String
deriving DecidableEq, Repr

/-! ### `fmt.Sprintf("%.2f", _)` model -/

/-- Round the fraction `n / d` (with `d > 0`) to the nearest natural
number, ties to even — the rounding Go's `strconv` fixed-precision
formatting applies to the value being formatted. -/
def rhe (n d : Nat) : Nat :=
  let f := n / d
  let r := n % d
  if 2 * r < d then f
  else if d < 2 * r then f + 1
  else if f % 2 = 0 then f else f + 1

/-- Render a count of hundredths with exactly two digits after the point. -/
def fmt2abs (m : Nat) : String :=
  natRepr (m / 100) ++ "." ++
    (if m % 100 < 10 then "0" ++ natRepr (m % 100) else natRepr (m % 100))

/-- Model of `fmt.Sprintf("%.2f", x)`: the sign, then `|x| = num.natAbs/den`
scaled to hundredths, rounded half-to-even and rendered with exactly two
decimal digits. -/
def fmt2 (x : ℚ) : String :=
  (if x.num < 0 then "-" else "") ++ fmt2abs (rhe (100 * x.num.natAbs) x.den)

/-! ### `PayPalError.Error` -/

/-- Model of `func (e *PayPalError) Error() string`. -/
def PayPalError.Error (e : PayPalError) : String :=
  if e.ErrorCode.length ≠ 0 ∧ e.ShortMessage.length ≠ 0 then
    "PayPal Error " ++ e.ErrorCode ++ ": " ++ e.ShortMessage
  else if e.Ack.length ≠ 0 then
    e.Ack
  else
    "PayPal is undergoing maintenance.\nPlease try again later."

/-! ### `SumPayPalDigitalGoodAmounts` -/

/-- Model of `SumPayPalDigitalGoodAmounts`: `sum` starts at 0 and the loop
adds `dg.Amount * float64(dg.Quantity)` for each good in order. -/
def SumPayPalDigitalGoodAmounts (goods : List PayPalDigitalGood) : ℚ :=
  goods.foldl (fun sum dg => sum + dg.Amount * (dg.Quantity : ℚ)) 0

/-! ### `CheckoutUrl` and `url.Values.Encode` -/

/-- Model of Go's `strings.ToLower` (ASCII case mapping; the strings this
package lowercases are ASCII acknowledgement values). -/
def strToLower (s : String) : String := ⟨s.data.map Char.toLower⟩

/-- UTF-8 bytes of a character, as naturals. -/
def utf8Bytes (c : Char) : List Nat :=
  let n := c.toNat
  if n < 0x80 then [n]
  else if n < 0x800 then [0xC0 + n / 64, 0x80 + n % 64]
  else if n < 0x10000 then
    [0xE0 + n / 4096, 0x80 + (n / 64) % 64, 0x80 + n % 64]
  else
    [0xF0 + n / 262144, 0x80 + (n / 4096) % 64, 0x80 + (n / 64) % 64,
      0x80 + n % 64]

/-- Upper-case hexadecimal digit for `n < 16`. -/
def hexDigit (n : Nat) : Char :=
  if n < 10 then digitChar n else Char.ofNat (55 + n)

/-- Characters `url.QueryEscape` leaves unescaped. -/
def isUnreserved (c : Char) : Bool :=
  c.isAlpha || c.isDigit || c = '-' || c = '_' || c = '.' || c = '~'

/-- Model of `url.QueryEscape` on one character. -/
def escapeChar (c : Char) : List Char :=
  if isUnreserved c then [c]
  else if c = ' ' then ['+']
  else (utf8Bytes c).flatMap fun b => ['%', hexDigit (b / 16), hexDigit (b % 16)]

/-- Model of `url.QueryEscape`. -/
def queryEscape (s : String) : String := ⟨s.data.flatMap escapeChar⟩

/-- Lexicographic (code-point-wise) string order, as Go's `sort.Strings`
compares keys. -/
def charsLe : List Char → List Char → Bool
  | [], _ => true
  | _ :: _, [] => false
  | a :: as, b :: bs =>
    if a.toNat < b.toNat then true
    else if b.toNat < a.toNat then false
    else charsLe as bs

/-- `strLe a b` iff `a ≤ b` lexicographically. -/
def strLe (a b : String) : Bool := charsLe a.data b.data

/-- Insert a pair into a key-sorted list (helper for `Values.encode`). -/
def insertByKey (p : String × String) : Values → Values
  | [] => [p]
  | q :: vs => if strLe p.1 q.1 then p :: q :: vs else q :: insertByKey p vs

/-- Sort pairs by key (Go's `Encode` iterates the map's keys in sorted
order). -/
def sortByKey : Values → Values
  | [] => []
  | p :: vs => insertByKey p (sortByKey vs)

/-- Join with `&` (helper for `Values.encode`). -/
def joinAmp : List String → String
  | [] => ""
  | [s] => s
  | s :: l => s ++ "&" ++ joinAmp l

/-- Model of `url.Values.Encode`: keys sorted, each pair rendered as
`escape(k)=escape(v)`, joined with `&`. -/
def Values.encode (vs : Values) : String :=
  joinAmp ((sortByKey vs).map fun p => queryEscape p.1 ++ "=" ++ queryEscape p.2)

/-- Model of `func (r *PayPalResponse) CheckoutUrl() string`. -/
def CheckoutUrl (r : PayPalResponse) : String :=
  let query : Values :=
    Values.add (Values.set [] "cmd" "_express-checkout") "token" r.Token
  let checkoutUrl :=
    if r.usedSandbox then CHECKOUT_SANDBOX_URL else CHECKOUT_PRODUCTION_URL
  checkoutUrl ++ "?" ++ Values.encode query

/-! ### `strconv.ParseFloat` model and `Populate` -/

/-- Leading decimal digits of a character list: value, digit count, rest. -/
def readDigits : List Char → Nat → Nat → Nat × Nat × List Char
  | c :: cs, acc, cnt =>
    if c.isDigit then readDigits cs (10 * acc + (c.toNat - 48)) (cnt + 1)
    else (acc, cnt, c :: cs)
  | [], acc, cnt => (acc, cnt, [])

/-- Model of Go's `strconv.ParseFloat` on ordinary decimal syntax
(`[+-]digits[.digits][(e|E)[+-]digits]`), returning `none` where Go returns
a non-nil error.  Infinities and NaN syntax fall outside the rational
model; the package's claims only concern unparseable strings. -/
def goParseFloat (s : String) : Option ℚ :=
  let cs := s.data
  let (sign, cs) : ℚ × List Char :=
    match cs with
    | '+' :: r => (1, r)
    | '-' :: r => (-1, r)
    | _ => (1, cs)
  let (ip, ic, cs) := readDigits cs 0 0
  let (fp, fc, cs) :=
    match cs with
    | '.' :: r => readDigits r 0 0
    | _ => (0, 0, cs)
  if ic + fc = 0 then none
  else
    let mant : ℚ := (ip : ℚ) * (10 : ℚ) ^ fc + (fp : ℚ)
    let base : ℚ := sign * mant / (10 : ℚ) ^ fc
    match cs with
    | [] => some base
    | 'e' :: r | 'E' :: r =>
      let (esign, r) : Bool × List Char :=
        match r with
        | '+' :: r => (false, r)
        | '-' :: r => (true, r)
        | _ => (false, r)
      let (ev, ec, r) := readDigits r 0 0
      if ec = 0 then none
      else if r ≠ [] then none
      else some (if esign then base / (10 : ℚ) ^ ev else base * (10 : ℚ) ^ ev)
    | _ => none

/-- Model of `func (response *PayPalPaymentResponse) Populate(values url.Values)`:
the receiver's seven fields are all overwritten from fixed keys; the two
numeric fields default to 0 when `strconv.ParseFloat` fails (its error is
discarded with `_`). -/
def Populate (values : Values) : PayPalPaymentResponse :=
  { TransactionId := Values.get values "PAYMENTINFO_0_TRANSACTIONID"
    Status := Values.get values "PAYMENTINFO_0_PAYMENTSTATUS"
    Amount := (goParseFloat (Values.get values "PAYMENTINFO_0_AMT")).getD 0
    Fee := (goParseFloat (Values.get values "PAYMENTINFO_0_FEEAMT")).getD 0
    Currency := Values.get values "PAYMENTINFO_0_CURRENCYCODE"
    Type' := Values.get values "PAYMENTINFO_0_PAYMENTTYPE"
    ReasonCode := Values.get values "PAYMENTINFO_0_REASONCODE" }

/-! ### `PerformRequest` -/

/-- Outcome of the HTTP POST to the NVP endpoint selected by the client's
sandbox flag: the POST itself may fail, reading the body may fail, or a
body is obtained, carried here as the result of `url.ParseQuery` on it. -/
inductive NvpTransport where
  | postError (msg : String)
  | readError (msg : String)
  | response (parsed : Except String Values)
deriving Repr

/-- The `error` values `PerformRequest` can return: an I/O error from the
POST or body read, a `url.ParseQuery` error, or a `*PayPalError`. -/
inductive GoError where
  | ioError (msg : String)
  | parseError (msg : String)
  | paypal (e : PayPalError)
deriving DecidableEq, Repr

/-- Lines 141–165 of `PerformRequest`: populate the response from a
successfully parsed mapping and decide whether to attach a `PayPalError`. -/
def processParsedResponse (usedSandbox : Bool) (responseValues : Values) :
    PayPalResponse × Option PayPalError :=
  let response : PayPalResponse :=
    { Ack := Values.get responseValues "ACK"
      CorrelationId := Values.get responseValues "CORRELATIONID"
      Timestamp := Values.get responseValues "TIMESTAMP"
      Version := Values.get responseValues "VERSION"
      Build := Values.get responseValues "BUILD"
      Token := Values.get responseValues "TOKEN"
      Values := responseValues
      usedSandbox := usedSandbox }
  let errorCode := Values.get responseValues "L_ERRORCODE0"
  if errorCode.length ≠ 0 ∨ strToLower response.Ack = "failure" ∨
      strToLower response.Ack = "failurewithwarning" then
    (response,
      some { Ack := response.Ack
             ErrorCode := errorCode
             ShortMessage := Values.get responseValues "L_SHORTMESSAGE0"
             LongMessage := Values.get responseValues "L_LONGMESSAGE0"
             SeverityCode := Values.get responseValues "L_SEVERITYCODE0" })
  else
    (response, none)

/-- Model of `func (pClient *PayPalClient) PerformRequest(values url.Values)`.
The credential fields are appended to the request, the POST (to the sandbox
or production NVP URL, per `pClient.usesSandbox`) is abstracted by `t`. -/
def PerformRequest (pClient : PayPalClient) (values : Values)
    (t : NvpTransport) : Option PayPalResponse × Option GoError :=
  let _values :=
    Values.add (Values.add (Values.add (Values.add values
      "USER" pClient.username) "PWD" pClient.password)
      "SIGNATURE" pClient.signature) "VERSION" NVP_VERSION
  match t with
  | .postError msg => (none, some (.ioError msg))
  | .readError msg => (none, some (.ioError msg))
  | .response (.error msg) =>
    (some { Ack := "", CorrelationId := "", Timestamp := "", Version := ""
            Build := "", Token := "", Values := []
            usedSandbox := pClient.usesSandbox },
      some (.parseError msg))
  | .response (.ok responseValues) =>
    let (response, perr) := processParsedResponse pClient.usesSandbox responseValues
    (some response, perr.map .paypal)

/-! ### Request builders -/

/-- The fields the `SetExpressCheckoutDigitalGoods` loop emits for the
`i`-th digital good. -/
def digitalGoodFields (i : Nat) (good : PayPalDigitalGood) :
    List (String × String) :=
  [(ikey "L_PAYMENTREQUEST_0_NAME" i, good.Name),
   (ikey "L_PAYMENTREQUEST_0_AMT" i, fmt2 good.Amount),
   (ikey "L_PAYMENTREQUEST_0_QTY" i, intRepr good.Quantity),
   (ikey "L_PAYMENTREQUEST_0_ITEMCATEGORY" i, "Digital")]

/-- A `for i := 0; i < len(goods); i++` loop emitting the fields `blk i g`
for the element `g` at each index `i`, starting at index `i`. -/
def indexedBlocks {α : Type} (blk : Nat → α → List (String × String)) :
    Nat → List α → List (String × String)
  | _, [] => []
  | i, g :: gs => blk i g ++ indexedBlocks blk (i + 1) gs

/-- The loop of `SetExpressCheckoutDigitalGoods`. -/
def digitalGoodsFields (i : Nat) (goods : List PayPalDigitalGood) :
    List (String × String) :=
  indexedBlocks digitalGoodFields i goods

/-- The `url.Values` built by `SetExpressCheckoutDigitalGoods` before it
delegates to `PerformRequest`. -/
def setExpressCheckoutDigitalGoodsValues (paymentAmount : ℚ)
    (currencyCode returnURL cancelURL : String)
    (goods : List PayPalDigitalGood) : Values :=
  let values := Values.set [] "METHOD" "SetExpressCheckout"
  let values := Values.add values "PAYMENTREQUEST_0_AMT" (fmt2 paymentAmount)
  let values := Values.add values "PAYMENTREQUEST_0_PAYMENTACTION" "Sale"
  let values := Values.add values "PAYMENTREQUEST_0_CURRENCYCODE" currencyCode
  let values := Values.add values "RETURNURL" returnURL
  let values := Values.add values "CANCELURL" cancelURL
  let values := Values.add values "REQCONFIRMSHIPPING" "0"
  let values := Values.add values "NOSHIPPING" "1"
  let values := Values.add values "SOLUTIONTYPE" "Sole"
  values ++ digitalGoodsFields 0 goods

/-- Model of `SetExpressCheckoutDigitalGoods`. -/
def SetExpressCheckoutDigitalGoods (pClient : PayPalClient)
    (paymentAmount : ℚ) (currencyCode returnURL cancelURL : String)
    (goods : List PayPalDigitalGood) (t : NvpTransport) :
    Option PayPalResponse × Option GoError :=
  PerformRequest pClient
    (setExpressCheckoutDigitalGoodsValues paymentAmount currencyCode
      returnURL cancelURL goods) t

/-- The fields the `SetExpressCheckout` loop emits for the `i`-th good:
`L_PAYMENTREQUEST_0_NUMBER{i}` only when `good.Id != ""`, then name,
amount and quantity. -/
def goodFields (i : Nat) (good : PayPalGood) : List (String × String) :=
  (if good.Id ≠ "" then [(ikey "L_PAYMENTREQUEST_0_NUMBER" i, good.Id)] else []) ++
  [(ikey "L_PAYMENTREQUEST_0_NAME" i, good.Name),
   (ikey "L_PAYMENTREQUEST_0_AMT" i, fmt2 good.Amount),
   (ikey "L_PAYMENTREQUEST_0_QTY" i, intRepr good.Quantity)]

/-- The loop of `SetExpressCheckout`. -/
def goodsFields (i : Nat) (goods : List PayPalGood) : List (String × String) :=
  indexedBlocks goodFields i goods

/-- The `url.Values` built by `SetExpressCheckout` before it delegates to
`PerformRequest`: fixed fields, one block per good, and — only when
`order.Discount > 0` — a trailing synthetic `DISCOUNT` line item at index
`goodsCount`. -/
def setExpressCheckoutValues (order : PayPalOrder)
    (goods : List PayPalGood) : Values :=
  let values := Values.set [] "METHOD" "SetExpressCheckout"
  let values := Values.add values "PAYMENTREQUEST_0_ITEMAMT" (fmt2 order.SubTotal)
  let values := Values.add values "PAYMENTREQUEST_0_SHIPPINGAMT" (fmt2 order.Shipping)
  let values := Values.add values "PAYMENTREQUEST_0_AMT" (fmt2 order.Total)
  let values := Values.add values "PAYMENTREQUEST_0_PAYMENTACTION" "Sale"
  let values := Values.add values "PAYMENTREQUEST_0_CURRENCYCODE" order.CurrencyCode
  let values := Values.add values "RETURNURL" order.ReturnUrl
  let values := Values.add values "CANCELURL" order.CancelUrl
  let values := Values.add values "REQCONFIRMSHIPPING" "0"
  let values := Values.add values "NOSHIPPING" "1"
  let values := Values.add values "SOLUTIONTYPE" "Sole"
  let goodsCount := goods.length
  let values := values ++ goodsFields 0 goods
  if order.Discount > 0 then
    Values.add (Values.add (Values.add values
      (ikey "L_PAYMENTREQUEST_0_NAME" goodsCount) "DISCOUNT")
      (ikey "L_PAYMENTREQUEST_0_AMT" goodsCount) (fmt2 (-order.Discount)))
      (ikey "L_PAYMENTREQUEST_0_QTY" goodsCount) "1"
  else
    values

/-- Model of `SetExpressCheckout`. -/
def SetExpressCheckout (pClient : PayPalClient) (order : PayPalOrder)
    (goods : List PayPalGood) (t : NvpTransport) :
    Option PayPalResponse × Option GoError :=
  PerformRequest pClient (setExpressCheckoutValues order goods) t

/-- The `url.Values` built by `DoExpressCheckoutPayment`. -/
def doExpressCheckoutPaymentValues (token payerId paymentType
    currencyCode : String) (finalPaymentAmount : ℚ) : Values :=
  let values := Values.set [] "METHOD" "DoExpressCheckoutPayment"
  let values := Values.add values "TOKEN" token
  let values := Values.add values "PAYERID" payerId
  let values := Values.add values "PAYMENTREQUEST_0_PAYMENTACTION" paymentType
  let values := Values.add values "PAYMENTREQUEST_0_CURRENCYCODE" currencyCode
  Values.add values "PAYMENTREQUEST_0_AMT" (fmt2 finalPaymentAmount)

/-- Model of `DoExpressCheckoutPayment`. -/
def DoExpressCheckoutPayment (pClient : PayPalClient) (token payerId
    paymentType currencyCode : String) (finalPaymentAmount : ℚ)
    (t : NvpTransport) : Option PayPalResponse × Option GoError :=
  PerformRequest pClient
    (doExpressCheckoutPaymentValues token payerId paymentType currencyCode
      finalPaymentAmount) t

/-- Model of `DoExpressCheckoutSale`, the convenience wrapper that fixes
`paymentType` to `"Sale"`. -/
def DoExpressCheckoutSale (pClient : PayPalClient) (token payerId
    currencyCode : String) (finalPaymentAmount : ℚ) (t : NvpTransport) :
    Option PayPalResponse × Option GoError :=
  DoExpressCheckoutPayment pClient token payerId "Sale" currencyCode
    finalPaymentAmount t

/-- Model of `GetExpressCheckoutDetails`. -/
def GetExpressCheckoutDetails (pClient : PayPalClient) (token : String)
    (t : NvpTransport) : Option PayPalResponse × Option GoError :=
  PerformRequest pClient
    (Values.set (Values.add [] "TOKEN" token) "METHOD" "GetExpressCheckoutDetails") t

/-! ## Helper lemmas -/

theorem digitChar_toNat {d : Nat} (h : d < 10) : (digitChar d).toNat = 48 + d := by
  interval_cases d <;> rfl

theorem digitChar_isDigit {d : Nat} (h : d < 10) : (digitChar d).isDigit = true := by
  interval_cases d <;> rfl

theorem digitsVal_append (l : List Char) (c : Char) :
    digitsVal (l ++ [c]) = 10 * digitsVal l + (c.toNat - 48) := by
  simp [digitsVal]

theorem natDigitsF_val : ∀ fuel n, n < fuel → digitsVal (natDigitsF fuel n) = n := by
  intro fuel
  induction fuel with
  | zero => intro n h; omega
  | succ f ih =>
    intro n h
    by_cases h10 : n < 10
    · simp only [natDigitsF, if_pos h10, digitsVal, List.foldl]
      have := digitChar_toNat h10
      omega
    · have hn : 0 < n := by omega
      have hdiv : n / 10 < n := Nat.div_lt_self hn (by omega)
      have hf : n / 10 < f := by omega
      simp only [natDigitsF, if_neg h10]
      rw [digitsVal_append, ih _ hf, digitChar_toNat (Nat.mod_lt n (by omega))]
      omega

theorem digitsVal_natRepr (n : Nat) : digitsVal (natRepr n).data = n :=
  natDigitsF_val (n + 1) n (Nat.lt_succ_self n)

theorem natRepr_inj {m n : Nat} (h : natRepr m = natRepr n) : m = n := by
  have hd : (natRepr m).data = (natRepr n).data := by rw [h]
  have := congrArg digitsVal hd
  rwa [digitsVal_natRepr, digitsVal_natRepr] at this

theorem natDigitsF_isDigit : ∀ fuel n, n < fuel →
    ∀ c ∈ natDigitsF fuel n, c.isDigit = true := by
  intro fuel
  induction fuel with
  | zero => intro n h; omega
  | succ f ih =>
    intro n h c hc
    by_cases h10 : n < 10
    · simp only [natDigitsF, if_pos h10, List.mem_singleton] at hc
      subst hc; exact digitChar_isDigit h10
    · have hn : 0 < n := by omega
      have hdiv : n / 10 < n := Nat.div_lt_self hn (by omega)
      simp only [natDigitsF, if_neg h10, List.mem_append, List.mem_singleton] at hc
      rcases hc with hc | hc
      · exact ih _ (by omega) c hc
      · subst hc; exact digitChar_isDigit (Nat.mod_lt n (by omega))

theorem natRepr_isDigit (n : Nat) : ∀ c ∈ (natRepr n).data, c.isDigit = true :=
  natDigitsF_isDigit (n + 1) n (Nat.lt_succ_self n)

theorem ikey_data (b : String) (i : Nat) :
    (ikey b i).data = b.data ++ (natRepr i).data := String.data_append b (natRepr i)

theorem ikey_inj {b : String} {i j : Nat} (h : ikey b i = ikey b j) : i = j := by
  have hd := congrArg String.data h
  rw [ikey_data, ikey_data] at hd
  exact natRepr_inj (String.ext (List.append_cancel_left hd))

/-- A string of which the base `b` is not a prefix is never equal to an
indexed key over `b` (an indexed key starts with its base). -/
theorem str_ne_ikey {k b : String} (h : ¬ b.data <+: k.data) (i : Nat) :
    k ≠ ikey b i := by
  intro he
  apply h
  rw [he, ikey_data]
  exact List.prefix_append b.data (natRepr i).data

/-- Indexed keys over bases of which neither is a prefix of the other are
never equal, whatever the indices. -/
theorem ikey_ne_ikey {b₁ b₂ : String}
    (h₁ : ¬ b₁.data <+: b₂.data) (h₂ : ¬ b₂.data <+: b₁.data) (i j : Nat) :
    ikey b₁ i ≠ ikey b₂ j := by
  intro he
  have hd := congrArg String.data he
  rw [ikey_data, ikey_data] at hd
  rcases List.prefix_or_prefix_of_prefix (List.prefix_append b₁.data (natRepr i).data)
      (hd ▸ List.prefix_append b₂.data (natRepr j).data) with hp | hp
  · exact h₁ hp
  · exact h₂ hp

theorem Values.get_nil (k : String) : Values.get [] k = "" := rfl

theorem Values.get_cons (p : String × String) (vs : Values) (k : String) :
    Values.get (p :: vs) k = if p.1 = k then p.2 else Values.get vs k := rfl

theorem Values.countKey_nil (k : String) : Values.countKey [] k = 0 := rfl

theorem Values.countKey_cons (p : String × String) (vs : Values) (k : String) :
    Values.countKey (p :: vs) k =
      (if p.1 = k then 1 else 0) + Values.countKey vs k := rfl

theorem Values.countKey_append (l₁ l₂ : Values) (k : String) :
    Values.countKey (l₁ ++ l₂) k = Values.countKey l₁ k + Values.countKey l₂ k := by
  induction l₁ with
  | nil => simp [Values.countKey]
  | cons p tl ih =>
    rw [List.cons_append, Values.countKey_cons, Values.countKey_cons, ih]
    omega

theorem Values.countKey_eq_zero {vs : Values} {k : String}
    (h : ∀ p ∈ vs, p.1 ≠ k) : Values.countKey vs k = 0 := by
  induction vs with
  | nil => rfl
  | cons p tl ih =>
    rw [Values.countKey_cons, if_neg (h p (List.mem_cons_self p tl)),
      Nat.zero_add]
    exact ih fun q hq => h q (List.mem_cons_of_mem p hq)

theorem Values.get_append_right {l₁ : Values} (l₂ : Values) {k : String}
    (h : ∀ p ∈ l₁, p.1 ≠ k) :
    Values.get (l₁ ++ l₂) k = Values.get l₂ k := by
  induction l₁ with
  | nil => rfl
  | cons p tl ih =>
    rw [List.cons_append, Values.get_cons,
      if_neg (h p (List.mem_cons_self p tl))]
    exact ih fun q hq => h q (List.mem_cons_of_mem p hq)

theorem Values.get_append_left {l₁ : Values} (l₂ : Values) {k : String}
    (h : Values.containsKey l₁ k = true) :
    Values.get (l₁ ++ l₂) k = Values.get l₁ k := by
  induction l₁ with
  | nil => simp [Values.containsKey] at h
  | cons p tl ih =>
    rw [List.cons_append, Values.get_cons, Values.get_cons]
    by_cases hp : p.1 = k
    · rw [if_pos hp, if_pos hp]
    · rw [if_neg hp, if_neg hp]
      apply ih
      simp only [Values.containsKey, Bool.or_eq_true, decide_eq_true_eq] at h
      rcases h with h | h
      · exact absurd h hp
      · exact h

theorem Values.get_eq_of_countKey_zero {vs : Values} {k : String}
    (h : Values.countKey vs k = 0) : Values.get vs k = "" := by
  induction vs with
  | nil => rfl
  | cons p tl ih =>
    rw [Values.countKey_cons] at h
    by_cases hp : p.1 = k
    · rw [if_pos hp] at h; omega
    · rw [Values.get_cons, if_neg hp]
      exact ih (by omega)

theorem Values.containsKey_eq_false {vs : Values} {k : String}
    (h : Values.containsKey vs k = false) : Values.get vs k = "" := by
  induction vs with
  | nil => rfl
  | cons p tl ih =>
    simp only [Values.containsKey, Bool.or_eq_false_iff,
      decide_eq_false_iff_not] at h
    rw [Values.get_cons, if_neg h.1]
    exact ih h.2

theorem Values.countKey_zero_iff (vs : Values) (k : String) :
    Values.countKey vs k = 0 ↔ ∀ p ∈ vs, p.1 ≠ k := by
  induction vs with
  | nil => simp [Values.countKey]
  | cons q tl ih =>
    rw [Values.countKey_cons]
    constructor
    · intro h p hp
      by_cases hq : q.1 = k
      · rw [if_pos hq] at h
        exact absurd h (by omega)
      · rw [if_neg hq, Nat.zero_add] at h
        rcases List.mem_cons.mp hp with he | hm
        · subst he; exact hq
        · exact ih.mp h p hm
    · intro h
      rw [if_neg (h q (List.mem_cons_self q tl)), Nat.zero_add]
      exact ih.mpr fun p hp => h p (List.mem_cons_of_mem q hp)

theorem Values.containsKey_cons (p : String × String) (vs : Values) (k : String) :
    Values.containsKey (p :: vs) k =
      (decide (p.1 = k) || Values.containsKey vs k) := rfl

theorem Values.containsKey_false_iff (vs : Values) (k : String) :
    Values.containsKey vs k = false ↔ ∀ p ∈ vs, p.1 ≠ k := by
  induction vs with
  | nil => simp [Values.containsKey]
  | cons q tl ih =>
    rw [Values.containsKey_cons]
    simp only [Bool.or_eq_false_iff, decide_eq_false_iff_not, ih]
    constructor
    · rintro ⟨h1, h2⟩ p hp
      rcases List.mem_cons.mp hp with he | hm
      · subst he; exact h1
      · exact h2 p hm
    · intro h
      exact ⟨h q (List.mem_cons_self q tl),
        fun p hm => h p (List.mem_cons_of_mem q hm)⟩

theorem Values.containsKey_append (l₁ l₂ : Values) (k : String) :
    Values.containsKey (l₁ ++ l₂) k =
      (Values.containsKey l₁ k || Values.containsKey l₂ k) := by
  induction l₁ with
  | nil => simp [Values.containsKey]
  | cons p tl ih =>
    rw [List.cons_append, Values.containsKey_cons, Values.containsKey_cons, ih,
      Bool.or_assoc]

theorem Values.containsKey_false_of_countKey_zero {vs : Values} {k : String}
    (h : Values.countKey vs k = 0) : Values.containsKey vs k = false :=
  (Values.containsKey_false_iff vs k).mpr ((Values.countKey_zero_iff vs k).mp h)

/-! ### Generic lemmas about `indexedBlocks`

All are relative to a target key family `tk` such that a block at index `n`
holds no key `tk m` for `m ≠ n` (`Hother`). -/

theorem indexedBlocks_countKey_zero {α : Type}
    {blk : Nat → α → List (String × String)} {tk : Nat → String}
    (Hother : ∀ n m (g : α), m ≠ n → Values.countKey (blk n g) (tk m) = 0) :
    ∀ (j : Nat) (gs : List α) (m : Nat), (∀ i, i < gs.length → j + i ≠ m) →
      Values.countKey (indexedBlocks blk j gs) (tk m) = 0 := by
  intro j gs
  induction gs generalizing j with
  | nil => intro m _; rfl
  | cons g tl ih =>
    intro m hm
    simp only [indexedBlocks, Values.countKey_append]
    rw [Hother j m g (by have := hm 0 (by simp); omega),
      ih (j + 1) m (by intro i hi; have := hm (i + 1) (by simp; omega); omega)]

theorem indexedBlocks_countKey {α : Type}
    {blk : Nat → α → List (String × String)} {tk : Nat → String}
    (Hother : ∀ n m (g : α), m ≠ n → Values.countKey (blk n g) (tk m) = 0) :
    ∀ (j : Nat) (gs : List α) (i : Nat) (h : i < gs.length),
      Values.countKey (indexedBlocks blk j gs) (tk (j + i)) =
        Values.countKey (blk (j + i) (gs.get ⟨i, h⟩)) (tk (j + i)) := by
  intro j gs
  induction gs generalizing j with
  | nil => intro i h; cases h
  | cons g tl ih =>
    intro i h
    simp only [indexedBlocks, Values.countKey_append]
    match i with
    | 0 =>
      rw [indexedBlocks_countKey_zero Hother (j + 1) tl (j + 0)
        (by intro i _; omega)]
      simp
    | i' + 1 =>
      rw [Hother j (j + (i' + 1)) g (by omega)]
      have := ih (j + 1) i' (by simpa using h)
      simp only [Nat.zero_add]
      rw [show j + (i' + 1) = (j + 1) + i' by omega]
      rw [this]
      rfl

theorem indexedBlocks_get {α : Type}
    {blk : Nat → α → List (String × String)} {tk : Nat → String}
    (Hother : ∀ n m (g : α), m ≠ n → Values.countKey (blk n g) (tk m) = 0) :
    ∀ (j : Nat) (gs : List α) (i : Nat) (h : i < gs.length),
      Values.get (indexedBlocks blk j gs) (tk (j + i)) =
        Values.get (blk (j + i) (gs.get ⟨i, h⟩)) (tk (j + i)) := by
  intro j gs
  induction gs generalizing j with
  | nil => intro i h; cases h
  | cons g tl ih =>
    intro i h
    simp only [indexedBlocks]
    match i with
    | 0 =>
      by_cases hc : Values.containsKey (blk j g) (tk (j + 0)) = true
      · rw [Values.get_append_left _ hc]
        rfl
      · have hc' := Bool.eq_false_iff.mpr hc
        rw [Values.get_append_right _
          ((Values.containsKey_false_iff _ _).mp hc')]
        rw [Values.get_eq_of_countKey_zero
          (indexedBlocks_countKey_zero Hother (j + 1) tl (j + 0)
            (by intro i _; omega))]
        exact (Values.containsKey_eq_false hc').symm
    | i' + 1 =>
      rw [Values.get_append_right _
        ((Values.countKey_zero_iff _ _).mp (Hother j (j + (i' + 1)) g (by omega)))]
      have := ih (j + 1) i' (by simpa using h)
      rw [show j + (i' + 1) = (j + 1) + i' by omega]
      rw [this]
      rfl

theorem indexedBlocks_containsKey {α : Type}
    {blk : Nat → α → List (String × String)} {tk : Nat → String}
    (Hother : ∀ n m (g : α), m ≠ n → Values.countKey (blk n g) (tk m) = 0) :
    ∀ (j : Nat) (gs : List α) (i : Nat) (h : i < gs.length),
      Values.containsKey (indexedBlocks blk j gs) (tk (j + i)) =
        Values.containsKey (blk (j + i) (gs.get ⟨i, h⟩)) (tk (j + i)) := by
  intro j gs
  induction gs generalizing j with
  | nil => intro i h; cases h
  | cons g tl ih =>
    intro i h
    simp only [indexedBlocks, Values.containsKey_append]
    match i with
    | 0 =>
      rw [Values.containsKey_false_of_countKey_zero
        (indexedBlocks_countKey_zero Hother (j + 1) tl (j + 0)
          (by intro i _; omega))]
      simp
    | i' + 1 =>
      rw [Values.containsKey_false_of_countKey_zero
        (Hother j (j + (i' + 1)) g (by omega))]
      have := ih (j + 1) i' (by simpa using h)
      rw [show j + (i' + 1) = (j + 1) + i' by omega]
      rw [this]
      simp

/-! ### Characterisation of the per-good field blocks -/

theorem goodFields_countKey_eq (n : Nat) (g : PayPalGood) (k : String) :
    Values.countKey (goodFields n g) k =
      (if g.Id ≠ "" then
        (if ikey "L_PAYMENTREQUEST_0_NUMBER" n = k then 1 else 0) else 0) +
      ((if ikey "L_PAYMENTREQUEST_0_NAME" n = k then 1 else 0) +
       ((if ikey "L_PAYMENTREQUEST_0_AMT" n = k then 1 else 0) +
        (if ikey "L_PAYMENTREQUEST_0_QTY" n = k then 1 else 0))) := by
  by_cases hid : g.Id ≠ ""
  · simp only [goodFields, if_pos hid, List.cons_append, List.nil_append,
      Values.countKey_cons, Values.countKey_nil]
    split_ifs <;> omega
  · simp only [goodFields, if_neg hid, List.nil_append,
      Values.countKey_cons, Values.countKey_nil]
    split_ifs <;> omega

theorem goodFields_get_eq (n : Nat) (g : PayPalGood) (k : String) :
    Values.get (goodFields n g) k =
      if g.Id ≠ "" ∧ ikey "L_PAYMENTREQUEST_0_NUMBER" n = k then g.Id
      else if ikey "L_PAYMENTREQUEST_0_NAME" n = k then g.Name
      else if ikey "L_PAYMENTREQUEST_0_AMT" n = k then fmt2 g.Amount
      else if ikey "L_PAYMENTREQUEST_0_QTY" n = k then intRepr g.Quantity
      else "" := by
  by_cases hid : g.Id ≠ ""
  · simp only [goodFields, if_pos hid, List.cons_append, List.nil_append,
      Values.get_cons, Values.get_nil]
    simp [hid]
  · simp only [goodFields, if_neg hid, List.nil_append,
      Values.get_cons, Values.get_nil]
    simp [hid]

theorem goodFields_containsKey_iff (n : Nat) (g : PayPalGood) (k : String) :
    Values.containsKey (goodFields n g) k = true ↔
      ((g.Id ≠ "" ∧ ikey "L_PAYMENTREQUEST_0_NUMBER" n = k) ∨
       ikey "L_PAYMENTREQUEST_0_NAME" n = k ∨
       ikey "L_PAYMENTREQUEST_0_AMT" n = k ∨
       ikey "L_PAYMENTREQUEST_0_QTY" n = k) := by
  by_cases hid : g.Id ≠ ""
  · simp [goodFields, if_pos hid, Values.containsKey_cons, Values.containsKey,
      hid]
  · simp [goodFields, if_neg hid, Values.containsKey_cons, Values.containsKey,
      hid]

theorem digitalGoodFields_countKey_eq (n : Nat) (g : PayPalDigitalGood)
    (k : String) :
    Values.countKey (digitalGoodFields n g) k =
      (if ikey "L_PAYMENTREQUEST_0_NAME" n = k then 1 else 0) +
      ((if ikey "L_PAYMENTREQUEST_0_AMT" n = k then 1 else 0) +
       ((if ikey "L_PAYMENTREQUEST_0_QTY" n = k then 1 else 0) +
        (if ikey "L_PAYMENTREQUEST_0_ITEMCATEGORY" n = k then 1 else 0))) := by
  simp only [digitalGoodFields, Values.countKey_cons, Values.countKey_nil]
  split_ifs <;> omega

theorem digitalGoodFields_get_eq (n : Nat) (g : PayPalDigitalGood)
    (k : String) :
    Values.get (digitalGoodFields n g) k =
      if ikey "L_PAYMENTREQUEST_0_NAME" n = k then g.Name
      else if ikey "L_PAYMENTREQUEST_0_AMT" n = k then fmt2 g.Amount
      else if ikey "L_PAYMENTREQUEST_0_QTY" n = k then intRepr g.Quantity
      else if ikey "L_PAYMENTREQUEST_0_ITEMCATEGORY" n = k then "Digital"
      else "" := by
  simp only [digitalGoodFields, Values.get_cons, Values.get_nil]

/-! ### Miscellaneous helpers -/

theorem str_length_ne_zero {s : String} : s.length ≠ 0 ↔ s ≠ "" := by
  constructor
  · intro h he
    subst he
    exact h rfl
  · intro h hl
    exact h (String.ext (List.length_eq_zero.mp hl))

theorem foldl_add_sum (f : PayPalDigitalGood → ℚ) :
    ∀ (l : List PayPalDigitalGood) (a : ℚ),
      l.foldl (fun s g => s + f g) a = a + (l.map f).sum := by
  intro l
  induction l with
  | nil => intro a; simp
  | cons g tl ih =>
    intro a
    rw [List.foldl_cons, ih, List.map_cons, List.sum_cons]
    ring

/-! ## Claim theorems -/

/-- Claim C4: `SumPayPalDigitalGoodAmounts` returns the sum over the list of
`Amount × Quantity`; in particular 0 on the empty list and 25 on
`[{amount 10, qty 2}, {amount 5, qty 1}]`. -/
theorem claim_C4_sum_digital_goods :
    (∀ goods : List PayPalDigitalGood,
      SumPayPalDigitalGoodAmounts goods =
        (goods.map fun dg => dg.Amount * (dg.Quantity : ℚ)).sum) ∧
    SumPayPalDigitalGoodAmounts [] = 0 ∧
    SumPayPalDigitalGoodAmounts
      [⟨"a", 10, 2⟩, ⟨"b", 5, 1⟩] = 25 := by
  have hgen : ∀ goods : List PayPalDigitalGood,
      SumPayPalDigitalGoodAmounts goods =
        (goods.map fun dg => dg.Amount * (dg.Quantity : ℚ)).sum := by
    intro goods
    rw [SumPayPalDigitalGoodAmounts, foldl_add_sum, zero_add]
  refine ⟨hgen, rfl, ?_⟩
  rw [hgen]
  norm_num

/-- Claim C7: `DoExpressCheckoutSale` is extensionally the same function as
`DoExpressCheckoutPayment` applied to payment type `"Sale"`. -/
theorem claim_C7_sale_wrapper :
    ∀ (c : PayPalClient) (token payerId currencyCode : String)
      (amount : ℚ) (t : NvpTransport),
      DoExpressCheckoutSale c token payerId currencyCode amount t =
        DoExpressCheckoutPayment c token payerId "Sale" currencyCode amount t :=
  fun _ _ _ _ _ _ => rfl

/-- Claim C10: when the POST or the body read fails, `PerformRequest`
returns the underlying error unchanged with a nil response; no response
value is constructed and no field parsing occurs. -/
theorem claim_C10_transport_failure :
    ∀ (c : PayPalClient) (values : Values) (msg : String),
      PerformRequest c values (NvpTransport.postError msg) =
        (none, some (GoError.ioError msg)) ∧
      PerformRequest c values (NvpTransport.readError msg) =
        (none, some (GoError.ioError msg)) :=
  fun _ _ _ => ⟨rfl, rfl⟩

/-- Claim C8: `PayPalError.Error` yields the maintenance fallback exactly on
the branch where neither the code-and-short-message pair nor the ack is
populated; the code/short-message branch and the ack branch produce the
claimed messages. -/
theorem claim_C8_error_message (e : PayPalError) :
    (e.ErrorCode ≠ "" ∧ e.ShortMessage ≠ "" →
      PayPalError.Error e =
        "PayPal Error " ++ e.ErrorCode ++ ": " ++ e.ShortMessage) ∧
    (¬(e.ErrorCode ≠ "" ∧ e.ShortMessage ≠ "") → e.Ack ≠ "" →
      PayPalError.Error e = e.Ack) ∧
    (¬(e.ErrorCode ≠ "" ∧ e.ShortMessage ≠ "") → e.Ack = "" →
      PayPalError.Error e =
        "PayPal is undergoing maintenance.\nPlease try again later.") := by
  refine ⟨fun h => ?_, fun h ha => ?_, fun h ha => ?_⟩
  · rw [PayPalError.Error,
      if_pos ⟨str_length_ne_zero.mpr h.1, str_length_ne_zero.mpr h.2⟩]
  · rw [PayPalError.Error,
      if_neg (fun hc => h ⟨str_length_ne_zero.mp hc.1, str_length_ne_zero.mp hc.2⟩),
      if_pos (str_length_ne_zero.mpr ha)]
  · rw [PayPalError.Error,
      if_neg (fun hc => h ⟨str_length_ne_zero.mp hc.1, str_length_ne_zero.mp hc.2⟩),
      if_neg (fun hl => hl (show e.Ack.length = 0 by rw [ha]; rfl))]

/-- Witness for C8 at three concrete errors, one per branch. -/
theorem claim_C8_error_message_witness :
    PayPalError.Error ⟨"", "10417", "Transaction cannot complete.", "", ""⟩ =
      "PayPal Error 10417: Transaction cannot complete." ∧
    PayPalError.Error ⟨"Failure", "", "", "", ""⟩ = "Failure" ∧
    PayPalError.Error ⟨"", "", "", "", ""⟩ =
      "PayPal is undergoing maintenance.\nPlease try again later." :=
  ⟨(claim_C8_error_message _).1 (by decide),
   (claim_C8_error_message _).2.1 (by decide) (by decide),
   (claim_C8_error_message _).2.2 (by decide) rfl⟩

/-- Claim C6: `CheckoutUrl` selects the sandbox or production checkout base
URL by the environment flag captured in the response and appends the query
`cmd=_express-checkout&token=<token>` (token serialised by query
escaping); concretely for a sandbox response with token `EC-123`. -/
theorem claim_C6_checkout_url :
    (∀ r : PayPalResponse,
      CheckoutUrl r =
        (if r.usedSandbox then CHECKOUT_SANDBOX_URL else CHECKOUT_PRODUCTION_URL)
          ++ "?" ++ ("cmd=_express-checkout&token=" ++ queryEscape r.Token)) ∧
    CheckoutUrl ⟨"", "", "", "", "", "EC-123", [], true⟩ =
      "https://www.sandbox.paypal.com/cgi-bin/webscr?cmd=_express-checkout&token=EC-123" := by
  constructor
  · intro r
    have henc : Values.encode
        (Values.add (Values.set [] "cmd" "_express-checkout") "token" r.Token) =
        "cmd=_express-checkout&token=" ++ queryEscape r.Token := by
      simp [Values.encode, Values.add, Values.set, sortByKey, insertByKey,
        strLe, charsLe, joinAmp, queryEscape]
      rfl
    show (if r.usedSandbox then CHECKOUT_SANDBOX_URL else CHECKOUT_PRODUCTION_URL)
        ++ "?" ++ Values.encode
          (Values.add (Values.set [] "cmd" "_express-checkout") "token" r.Token) = _
    rw [henc]
  · rfl

/-- Claim C5: `Populate` never fails: a missing or unparseable
`PAYMENTINFO_0_AMT`/`PAYMENTINFO_0_FEEAMT` yields 0 for the corresponding
numeric field, the five string fields are copied verbatim from their fixed
keys, and the result depends on nothing but the seven fixed keys. -/
theorem claim_C5_populate (values : Values) :
    ((Values.containsKey values "PAYMENTINFO_0_AMT" = false ∨
        goParseFloat (Values.get values "PAYMENTINFO_0_AMT") = none) →
      (Populate values).Amount = 0) ∧
    ((Values.containsKey values "PAYMENTINFO_0_FEEAMT" = false ∨
        goParseFloat (Values.get values "PAYMENTINFO_0_FEEAMT") = none) →
      (Populate values).Fee = 0) ∧
    (Populate values).TransactionId =
      Values.get values "PAYMENTINFO_0_TRANSACTIONID" ∧
    (Populate values).Status = Values.get values "PAYMENTINFO_0_PAYMENTSTATUS" ∧
    (Populate values).Type' = Values.get values "PAYMENTINFO_0_PAYMENTTYPE" ∧
    (Populate values).Currency = Values.get values "PAYMENTINFO_0_CURRENCYCODE" ∧
    (Populate values).ReasonCode = Values.get values "PAYMENTINFO_0_REASONCODE" ∧
    (∀ values₂ : Values,
      Values.get values "PAYMENTINFO_0_TRANSACTIONID" =
        Values.get values₂ "PAYMENTINFO_0_TRANSACTIONID" →
      Values.get values "PAYMENTINFO_0_PAYMENTSTATUS" =
        Values.get values₂ "PAYMENTINFO_0_PAYMENTSTATUS" →
      Values.get values "PAYMENTINFO_0_AMT" =
        Values.get values₂ "PAYMENTINFO_0_AMT" →
      Values.get values "PAYMENTINFO_0_FEEAMT" =
        Values.get values₂ "PAYMENTINFO_0_FEEAMT" →
      Values.get values "PAYMENTINFO_0_CURRENCYCODE" =
        Values.get values₂ "PAYMENTINFO_0_CURRENCYCODE" →
      Values.get values "PAYMENTINFO_0_PAYMENTTYPE" =
        Values.get values₂ "PAYMENTINFO_0_PAYMENTTYPE" →
      Values.get values "PAYMENTINFO_0_REASONCODE" =
        Values.get values₂ "PAYMENTINFO_0_REASONCODE" →
      Populate values = Populate values₂) := by
  refine ⟨fun h => ?_, fun h => ?_, rfl, rfl, rfl, rfl, rfl,
    fun values₂ h1 h2 h3 h4 h5 h6 h7 => ?_⟩
  · have hnone : goParseFloat (Values.get values "PAYMENTINFO_0_AMT") = none := by
      rcases h with h | h
      · rw [Values.containsKey_eq_false h]; rfl
      · exact h
    simp [Populate, hnone]
  · have hnone : goParseFloat (Values.get values "PAYMENTINFO_0_FEEAMT") = none := by
      rcases h with h | h
      · rw [Values.containsKey_eq_false h]; rfl
      · exact h
    simp [Populate, hnone]
  · simp only [Populate, h1, h2, h3, h4, h5, h6, h7]

/-- Witness for C5 at a concrete mapping with a non-numeric amount and an
absent fee field. -/
theorem claim_C5_populate_witness :
    (Populate [("PAYMENTINFO_0_AMT", "abc")]).Amount = 0 ∧
    (Populate [("PAYMENTINFO_0_AMT", "abc")]).Fee = 0 ∧
    Populate [("PAYMENTINFO_0_AMT", "abc")] =
      Populate [("PAYMENTINFO_0_AMT", "abc"), ("OTHER", "x")] :=
  ⟨(claim_C5_populate _).1 (Or.inr rfl),
   (claim_C5_populate _).2.1 (Or.inl rfl),
   (claim_C5_populate _).2.2.2.2.2.2.2 _ rfl rfl rfl rfl rfl rfl rfl⟩

/-- On a successfully parsed mapping, `PerformRequest` returns the populated
response and an optional error per the error-code/ack decision. -/
theorem performRequest_parsed_eq (c : PayPalClient) (req vals : Values) :
    PerformRequest c req (NvpTransport.response (Except.ok vals)) =
      (some ⟨Values.get vals "ACK", Values.get vals "CORRELATIONID",
          Values.get vals "TIMESTAMP", Values.get vals "VERSION",
          Values.get vals "BUILD", Values.get vals "TOKEN", vals,
          c.usesSandbox⟩,
        if (Values.get vals "L_ERRORCODE0").length ≠ 0 ∨
            strToLower (Values.get vals "ACK") = "failure" ∨
            strToLower (Values.get vals "ACK") = "failurewithwarning" then
          some (GoError.paypal ⟨Values.get vals "ACK",
            Values.get vals "L_ERRORCODE0", Values.get vals "L_SHORTMESSAGE0",
            Values.get vals "L_LONGMESSAGE0", Values.get vals "L_SEVERITYCODE0"⟩)
        else none) := by
  by_cases h : (Values.get vals "L_ERRORCODE0").length ≠ 0 ∨
      strToLower (Values.get vals "ACK") = "failure" ∨
      strToLower (Values.get vals "ACK") = "failurewithwarning"
  · rw [if_pos h]
    show (some (processParsedResponse c.usesSandbox vals).1,
      (processParsedResponse c.usesSandbox vals).2.map GoError.paypal) = _
    rw [show processParsedResponse c.usesSandbox vals =
      (⟨Values.get vals "ACK", Values.get vals "CORRELATIONID",
          Values.get vals "TIMESTAMP", Values.get vals "VERSION",
          Values.get vals "BUILD", Values.get vals "TOKEN", vals,
          c.usesSandbox⟩,
        some ⟨Values.get vals "ACK", Values.get vals "L_ERRORCODE0",
          Values.get vals "L_SHORTMESSAGE0", Values.get vals "L_LONGMESSAGE0",
          Values.get vals "L_SEVERITYCODE0"⟩) from
      by rw [processParsedResponse, if_pos h]]
    rfl
  · rw [if_neg h]
    show (some (processParsedResponse c.usesSandbox vals).1,
      (processParsedResponse c.usesSandbox vals).2.map GoError.paypal) = _
    rw [show processParsedResponse c.usesSandbox vals =
      (⟨Values.get vals "ACK", Values.get vals "CORRELATIONID",
          Values.get vals "TIMESTAMP", Values.get vals "VERSION",
          Values.get vals "BUILD", Values.get vals "TOKEN", vals,
          c.usesSandbox⟩, none) from by rw [processParsedResponse, if_neg h]]
    rfl

/-- Claim C1: for every successfully parsed response mapping,
`PerformRequest` attaches a `PayPalError` iff `L_ERRORCODE0` is non-empty or
the lower-cased ack is `failure`/`failurewithwarning`; the error's fields
are copied from the mapping, the populated response is always returned, a
`Success` ack with no error code yields no error, and a `Failure` ack
yields an error whose ack is `"Failure"`. -/
theorem claim_C1_response_error_decision (c : PayPalClient) (req vals : Values) :
    ((∃ e, (PerformRequest c req (NvpTransport.response (Except.ok vals))).2 =
        some (GoError.paypal e)) ↔
      (Values.get vals "L_ERRORCODE0" ≠ "" ∨
        strToLower (Values.get vals "ACK") = "failure" ∨
        strToLower (Values.get vals "ACK") = "failurewithwarning")) ∧
    (∀ e, (PerformRequest c req (NvpTransport.response (Except.ok vals))).2 =
        some (GoError.paypal e) →
      e.Ack = Values.get vals "ACK" ∧
      e.ErrorCode = Values.get vals "L_ERRORCODE0" ∧
      e.ShortMessage = Values.get vals "L_SHORTMESSAGE0" ∧
      e.LongMessage = Values.get vals "L_LONGMESSAGE0" ∧
      e.SeverityCode = Values.get vals "L_SEVERITYCODE0") ∧
    (PerformRequest c req (NvpTransport.response (Except.ok vals))).1 =
      some ⟨Values.get vals "ACK", Values.get vals "CORRELATIONID",
        Values.get vals "TIMESTAMP", Values.get vals "VERSION",
        Values.get vals "BUILD", Values.get vals "TOKEN", vals,
        c.usesSandbox⟩ ∧
    (Values.get vals "ACK" = "Success" → Values.get vals "L_ERRORCODE0" = "" →
      (PerformRequest c req (NvpTransport.response (Except.ok vals))).2 = none) ∧
    (Values.get vals "ACK" = "Failure" →
      ∃ e, (PerformRequest c req (NvpTransport.response (Except.ok vals))).2 =
          some (GoError.paypal e) ∧ e.Ack = "Failure") := by
  rw [performRequest_parsed_eq]
  refine ⟨?_, ?_, rfl, ?_, ?_⟩
  · constructor
    · rintro ⟨e, he⟩
      by_cases h : (Values.get vals "L_ERRORCODE0").length ≠ 0 ∨
          strToLower (Values.get vals "ACK") = "failure" ∨
          strToLower (Values.get vals "ACK") = "failurewithwarning"
      · rcases h with h | h | h
        · exact Or.inl (str_length_ne_zero.mp h)
        · exact Or.inr (Or.inl h)
        · exact Or.inr (Or.inr h)
      · rw [if_neg h] at he
        cases he
    · intro h
      have h' : (Values.get vals "L_ERRORCODE0").length ≠ 0 ∨
          strToLower (Values.get vals "ACK") = "failure" ∨
          strToLower (Values.get vals "ACK") = "failurewithwarning" := by
        rcases h with h | h | h
        · exact Or.inl (str_length_ne_zero.mpr h)
        · exact Or.inr (Or.inl h)
        · exact Or.inr (Or.inr h)
      rw [if_pos h']
      exact ⟨_, rfl⟩
  · intro e he
    by_cases h : (Values.get vals "L_ERRORCODE0").length ≠ 0 ∨
        strToLower (Values.get vals "ACK") = "failure" ∨
        strToLower (Values.get vals "ACK") = "failurewithwarning"
    · rw [if_pos h] at he
      cases he
      exact ⟨rfl, rfl, rfl, rfl, rfl⟩
    · rw [if_neg h] at he
      cases he
  · intro hS hE
    rw [if_neg]
    rw [hS, hE]
    decide
  · intro hF
    have h' : (Values.get vals "L_ERRORCODE0").length ≠ 0 ∨
        strToLower (Values.get vals "ACK") = "failure" ∨
        strToLower (Values.get vals "ACK") = "failurewithwarning" := by
      rw [hF]
      exact Or.inr (Or.inl rfl)
    rw [if_pos h']
    exact ⟨_, rfl, hF⟩

/-- Witness for C1 at concrete parsed mappings: one `ACK=Success` mapping
with no error code, one `ACK=Failure` mapping. -/
theorem claim_C1_response_error_decision_witness :
    ((PerformRequest ⟨"u", "p", "s", true⟩ []
        (NvpTransport.response (Except.ok [("ACK", "Success"), ("TOKEN", "EC-1")]))).2 =
      none) ∧
    (∃ e, (PerformRequest ⟨"u", "p", "s", true⟩ []
        (NvpTransport.response (Except.ok [("ACK", "Failure")]))).2 =
          some (GoError.paypal e) ∧ e.Ack = "Failure") ∧
    ((⟨"Failure", "", "", "", ""⟩ : PayPalError).Ack =
        Values.get [("ACK", "Failure")] "ACK" ∧
      (⟨"Failure", "", "", "", ""⟩ : PayPalError).ErrorCode =
        Values.get [("ACK", "Failure")] "L_ERRORCODE0" ∧
      (⟨"Failure", "", "", "", ""⟩ : PayPalError).ShortMessage =
        Values.get [("ACK", "Failure")] "L_SHORTMESSAGE0" ∧
      (⟨"Failure", "", "", "", ""⟩ : PayPalError).LongMessage =
        Values.get [("ACK", "Failure")] "L_LONGMESSAGE0" ∧
      (⟨"Failure", "", "", "", ""⟩ : PayPalError).SeverityCode =
        Values.get [("ACK", "Failure")] "L_SEVERITYCODE0") :=
  ⟨(claim_C1_response_error_decision ⟨"u", "p", "s", true⟩ []
      [("ACK", "Success"), ("TOKEN", "EC-1")]).2.2.2.1 rfl rfl,
   (claim_C1_response_error_decision ⟨"u", "p", "s", true⟩ []
      [("ACK", "Failure")]).2.2.2.2 rfl,
   (claim_C1_response_error_decision ⟨"u", "p", "s", true⟩ []
      [("ACK", "Failure")]).2.1 ⟨"Failure", "", "", "", ""⟩ rfl⟩

/-! ### Per-index key facts for the two loop bodies -/

theorem goodFields_other_NAME (n m : Nat) (g : PayPalGood) (hm : m ≠ n) :
    Values.countKey (goodFields n g) (ikey "L_PAYMENTREQUEST_0_NAME" m) = 0 := by
  rw [goodFields_countKey_eq]
  have c1 : ikey "L_PAYMENTREQUEST_0_NUMBER" n ≠ ikey "L_PAYMENTREQUEST_0_NAME" m :=
    ikey_ne_ikey (by decide) (by decide) n m
  have c2 : ikey "L_PAYMENTREQUEST_0_NAME" n ≠ ikey "L_PAYMENTREQUEST_0_NAME" m :=
    fun he => hm (ikey_inj he).symm
  have c3 : ikey "L_PAYMENTREQUEST_0_AMT" n ≠ ikey "L_PAYMENTREQUEST_0_NAME" m :=
    ikey_ne_ikey (by decide) (by decide) n m
  have c4 : ikey "L_PAYMENTREQUEST_0_QTY" n ≠ ikey "L_PAYMENTREQUEST_0_NAME" m :=
    ikey_ne_ikey (by decide) (by decide) n m
  simp [c1, c2, c3, c4]

theorem goodFields_other_AMT (n m : Nat) (g : PayPalGood) (hm : m ≠ n) :
    Values.countKey (goodFields n g) (ikey "L_PAYMENTREQUEST_0_AMT" m) = 0 := by
  rw [goodFields_countKey_eq]
  have c1 : ikey "L_PAYMENTREQUEST_0_NUMBER" n ≠ ikey "L_PAYMENTREQUEST_0_AMT" m :=
    ikey_ne_ikey (by decide) (by decide) n m
  have c2 : ikey "L_PAYMENTREQUEST_0_NAME" n ≠ ikey "L_PAYMENTREQUEST_0_AMT" m :=
    ikey_ne_ikey (by decide) (by decide) n m
  have c3 : ikey "L_PAYMENTREQUEST_0_AMT" n ≠ ikey "L_PAYMENTREQUEST_0_AMT" m :=
    fun he => hm (ikey_inj he).symm
  have c4 : ikey "L_PAYMENTREQUEST_0_QTY" n ≠ ikey "L_PAYMENTREQUEST_0_AMT" m :=
    ikey_ne_ikey (by decide) (by decide) n m
  simp [c1, c2, c3, c4]

theorem goodFields_other_QTY (n m : Nat) (g : PayPalGood) (hm : m ≠ n) :
    Values.countKey (goodFields n g) (ikey "L_PAYMENTREQUEST_0_QTY" m) = 0 := by
  rw [goodFields_countKey_eq]
  have c1 : ikey "L_PAYMENTREQUEST_0_NUMBER" n ≠ ikey "L_PAYMENTREQUEST_0_QTY" m :=
    ikey_ne_ikey (by decide) (by decide) n m
  have c2 : ikey "L_PAYMENTREQUEST_0_NAME" n ≠ ikey "L_PAYMENTREQUEST_0_QTY" m :=
    ikey_ne_ikey (by decide) (by decide) n m
  have c3 : ikey "L_PAYMENTREQUEST_0_AMT" n ≠ ikey "L_PAYMENTREQUEST_0_QTY" m :=
    ikey_ne_ikey (by decide) (by decide) n m
  have c4 : ikey "L_PAYMENTREQUEST_0_QTY" n ≠ ikey "L_PAYMENTREQUEST_0_QTY" m :=
    fun he => hm (ikey_inj he).symm
  simp [c1, c2, c3, c4]

theorem goodFields_other_NUMBER (n m : Nat) (g : PayPalGood) (hm : m ≠ n) :
    Values.countKey (goodFields n g) (ikey "L_PAYMENTREQUEST_0_NUMBER" m) = 0 := by
  rw [goodFields_countKey_eq]
  have c1 : ikey "L_PAYMENTREQUEST_0_NUMBER" n ≠ ikey "L_PAYMENTREQUEST_0_NUMBER" m :=
    fun he => hm (ikey_inj he).symm
  have c2 : ikey "L_PAYMENTREQUEST_0_NAME" n ≠ ikey "L_PAYMENTREQUEST_0_NUMBER" m :=
    ikey_ne_ikey (by decide) (by decide) n m
  have c3 : ikey "L_PAYMENTREQUEST_0_AMT" n ≠ ikey "L_PAYMENTREQUEST_0_NUMBER" m :=
    ikey_ne_ikey (by decide) (by decide) n m
  have c4 : ikey "L_PAYMENTREQUEST_0_QTY" n ≠ ikey "L_PAYMENTREQUEST_0_NUMBER" m :=
    ikey_ne_ikey (by decide) (by decide) n m
  simp [c1, c2, c3, c4]

theorem goodFields_count_NAME_self (n : Nat) (g : PayPalGood) :
    Values.countKey (goodFields n g) (ikey "L_PAYMENTREQUEST_0_NAME" n) = 1 := by
  rw [goodFields_countKey_eq]
  have c1 : ikey "L_PAYMENTREQUEST_0_NUMBER" n ≠ ikey "L_PAYMENTREQUEST_0_NAME" n :=
    ikey_ne_ikey (by decide) (by decide) n n
  have c3 : ikey "L_PAYMENTREQUEST_0_AMT" n ≠ ikey "L_PAYMENTREQUEST_0_NAME" n :=
    ikey_ne_ikey (by decide) (by decide) n n
  have c4 : ikey "L_PAYMENTREQUEST_0_QTY" n ≠ ikey "L_PAYMENTREQUEST_0_NAME" n :=
    ikey_ne_ikey (by decide) (by decide) n n
  simp [c1, c3, c4]

theorem goodFields_get_NAME_self (n : Nat) (g : PayPalGood) :
    Values.get (goodFields n g) (ikey "L_PAYMENTREQUEST_0_NAME" n) = g.Name := by
  rw [goodFields_get_eq]
  have c1 : ikey "L_PAYMENTREQUEST_0_NUMBER" n ≠ ikey "L_PAYMENTREQUEST_0_NAME" n :=
    ikey_ne_ikey (by decide) (by decide) n n
  simp [c1]

theorem goodFields_get_AMT_self (n : Nat) (g : PayPalGood) :
    Values.get (goodFields n g) (ikey "L_PAYMENTREQUEST_0_AMT" n) =
      fmt2 g.Amount := by
  rw [goodFields_get_eq]
  have c1 : ikey "L_PAYMENTREQUEST_0_NUMBER" n ≠ ikey "L_PAYMENTREQUEST_0_AMT" n :=
    ikey_ne_ikey (by decide) (by decide) n n
  have c2 : ikey "L_PAYMENTREQUEST_0_NAME" n ≠ ikey "L_PAYMENTREQUEST_0_AMT" n :=
    ikey_ne_ikey (by decide) (by decide) n n
  simp [c1, c2]

theorem goodFields_get_QTY_self (n : Nat) (g : PayPalGood) :
    Values.get (goodFields n g) (ikey "L_PAYMENTREQUEST_0_QTY" n) =
      intRepr g.Quantity := by
  rw [goodFields_get_eq]
  have c1 : ikey "L_PAYMENTREQUEST_0_NUMBER" n ≠ ikey "L_PAYMENTREQUEST_0_QTY" n :=
    ikey_ne_ikey (by decide) (by decide) n n
  have c2 : ikey "L_PAYMENTREQUEST_0_NAME" n ≠ ikey "L_PAYMENTREQUEST_0_QTY" n :=
    ikey_ne_ikey (by decide) (by decide) n n
  have c3 : ikey "L_PAYMENTREQUEST_0_AMT" n ≠ ikey "L_PAYMENTREQUEST_0_QTY" n :=
    ikey_ne_ikey (by decide) (by decide) n n
  simp [c1, c2, c3]

theorem goodFields_containsKey_NUMBER_self (n : Nat) (g : PayPalGood) :
    (Values.containsKey (goodFields n g) (ikey "L_PAYMENTREQUEST_0_NUMBER" n) =
      true) ↔ g.Id ≠ "" := by
  rw [goodFields_containsKey_iff]
  have c2 : ikey "L_PAYMENTREQUEST_0_NAME" n ≠ ikey "L_PAYMENTREQUEST_0_NUMBER" n :=
    ikey_ne_ikey (by decide) (by decide) n n
  have c3 : ikey "L_PAYMENTREQUEST_0_AMT" n ≠ ikey "L_PAYMENTREQUEST_0_NUMBER" n :=
    ikey_ne_ikey (by decide) (by decide) n n
  have c4 : ikey "L_PAYMENTREQUEST_0_QTY" n ≠ ikey "L_PAYMENTREQUEST_0_NUMBER" n :=
    ikey_ne_ikey (by decide) (by decide) n n
  simp [c2, c3, c4]

theorem digitalGoodFields_other_NAME (n m : Nat) (g : PayPalDigitalGood)
    (hm : m ≠ n) :
    Values.countKey (digitalGoodFields n g)
      (ikey "L_PAYMENTREQUEST_0_NAME" m) = 0 := by
  rw [digitalGoodFields_countKey_eq]
  have c1 : ikey "L_PAYMENTREQUEST_0_NAME" n ≠ ikey "L_PAYMENTREQUEST_0_NAME" m :=
    fun he => hm (ikey_inj he).symm
  have c2 : ikey "L_PAYMENTREQUEST_0_AMT" n ≠ ikey "L_PAYMENTREQUEST_0_NAME" m :=
    ikey_ne_ikey (by decide) (by decide) n m
  have c3 : ikey "L_PAYMENTREQUEST_0_QTY" n ≠ ikey "L_PAYMENTREQUEST_0_NAME" m :=
    ikey_ne_ikey (by decide) (by decide) n m
  have c4 : ikey "L_PAYMENTREQUEST_0_ITEMCATEGORY" n ≠
      ikey "L_PAYMENTREQUEST_0_NAME" m :=
    ikey_ne_ikey (by decide) (by decide) n m
  simp [c1, c2, c3, c4]

theorem digitalGoodFields_other_AMT (n m : Nat) (g : PayPalDigitalGood)
    (hm : m ≠ n) :
    Values.countKey (digitalGoodFields n g)
      (ikey "L_PAYMENTREQUEST_0_AMT" m) = 0 := by
  rw [digitalGoodFields_countKey_eq]
  have c1 : ikey "L_PAYMENTREQUEST_0_NAME" n ≠ ikey "L_PAYMENTREQUEST_0_AMT" m :=
    ikey_ne_ikey (by decide) (by decide) n m
  have c2 : ikey "L_PAYMENTREQUEST_0_AMT" n ≠ ikey "L_PAYMENTREQUEST_0_AMT" m :=
    fun he => hm (ikey_inj he).symm
  have c3 : ikey "L_PAYMENTREQUEST_0_QTY" n ≠ ikey "L_PAYMENTREQUEST_0_AMT" m :=
    ikey_ne_ikey (by decide) (by decide) n m
  have c4 : ikey "L_PAYMENTREQUEST_0_ITEMCATEGORY" n ≠
      ikey "L_PAYMENTREQUEST_0_AMT" m :=
    ikey_ne_ikey (by decide) (by decide) n m
  simp [c1, c2, c3, c4]

theorem digitalGoodFields_other_QTY (n m : Nat) (g : PayPalDigitalGood)
    (hm : m ≠ n) :
    Values.countKey (digitalGoodFields n g)
      (ikey "L_PAYMENTREQUEST_0_QTY" m) = 0 := by
  rw [digitalGoodFields_countKey_eq]
  have c1 : ikey "L_PAYMENTREQUEST_0_NAME" n ≠ ikey "L_PAYMENTREQUEST_0_QTY" m :=
    ikey_ne_ikey (by decide) (by decide) n m
  have c2 : ikey "L_PAYMENTREQUEST_0_AMT" n ≠ ikey "L_PAYMENTREQUEST_0_QTY" m :=
    ikey_ne_ikey (by decide) (by decide) n m
  have c3 : ikey "L_PAYMENTREQUEST_0_QTY" n ≠ ikey "L_PAYMENTREQUEST_0_QTY" m :=
    fun he => hm (ikey_inj he).symm
  have c4 : ikey "L_PAYMENTREQUEST_0_ITEMCATEGORY" n ≠
      ikey "L_PAYMENTREQUEST_0_QTY" m :=
    ikey_ne_ikey (by decide) (by decide) n m
  simp [c1, c2, c3, c4]

theorem digitalGoodFields_other_ITEMCATEGORY (n m : Nat) (g : PayPalDigitalGood)
    (hm : m ≠ n) :
    Values.countKey (digitalGoodFields n g)
      (ikey "L_PAYMENTREQUEST_0_ITEMCATEGORY" m) = 0 := by
  rw [digitalGoodFields_countKey_eq]
  have c1 : ikey "L_PAYMENTREQUEST_0_NAME" n ≠
      ikey "L_PAYMENTREQUEST_0_ITEMCATEGORY" m :=
    ikey_ne_ikey (by decide) (by decide) n m
  have c2 : ikey "L_PAYMENTREQUEST_0_AMT" n ≠
      ikey "L_PAYMENTREQUEST_0_ITEMCATEGORY" m :=
    ikey_ne_ikey (by decide) (by decide) n m
  have c3 : ikey "L_PAYMENTREQUEST_0_QTY" n ≠
      ikey "L_PAYMENTREQUEST_0_ITEMCATEGORY" m :=
    ikey_ne_ikey (by decide) (by decide) n m
  have c4 : ikey "L_PAYMENTREQUEST_0_ITEMCATEGORY" n ≠
      ikey "L_PAYMENTREQUEST_0_ITEMCATEGORY" m :=
    fun he => hm (ikey_inj he).symm
  simp [c1, c2, c3, c4]

theorem digitalGoodFields_count_NAME_self (n : Nat) (g : PayPalDigitalGood) :
    Values.countKey (digitalGoodFields n g)
      (ikey "L_PAYMENTREQUEST_0_NAME" n) = 1 := by
  rw [digitalGoodFields_countKey_eq]
  have c2 : ikey "L_PAYMENTREQUEST_0_AMT" n ≠ ikey "L_PAYMENTREQUEST_0_NAME" n :=
    ikey_ne_ikey (by decide) (by decide) n n
  have c3 : ikey "L_PAYMENTREQUEST_0_QTY" n ≠ ikey "L_PAYMENTREQUEST_0_NAME" n :=
    ikey_ne_ikey (by decide) (by decide) n n
  have c4 : ikey "L_PAYMENTREQUEST_0_ITEMCATEGORY" n ≠
      ikey "L_PAYMENTREQUEST_0_NAME" n :=
    ikey_ne_ikey (by decide) (by decide) n n
  simp [c2, c3, c4]

theorem digitalGoodFields_get_NAME_self (n : Nat) (g : PayPalDigitalGood) :
    Values.get (digitalGoodFields n g) (ikey "L_PAYMENTREQUEST_0_NAME" n) =
      g.Name := by
  rw [digitalGoodFields_get_eq]
  simp

theorem digitalGoodFields_get_AMT_self (n : Nat) (g : PayPalDigitalGood) :
    Values.get (digitalGoodFields n g) (ikey "L_PAYMENTREQUEST_0_AMT" n) =
      fmt2 g.Amount := by
  rw [digitalGoodFields_get_eq]
  have c1 : ikey "L_PAYMENTREQUEST_0_NAME" n ≠ ikey "L_PAYMENTREQUEST_0_AMT" n :=
    ikey_ne_ikey (by decide) (by decide) n n
  simp [c1]

theorem digitalGoodFields_get_QTY_self (n : Nat) (g : PayPalDigitalGood) :
    Values.get (digitalGoodFields n g) (ikey "L_PAYMENTREQUEST_0_QTY" n) =
      intRepr g.Quantity := by
  rw [digitalGoodFields_get_eq]
  have c1 : ikey "L_PAYMENTREQUEST_0_NAME" n ≠ ikey "L_PAYMENTREQUEST_0_QTY" n :=
    ikey_ne_ikey (by decide) (by decide) n n
  have c2 : ikey "L_PAYMENTREQUEST_0_AMT" n ≠ ikey "L_PAYMENTREQUEST_0_QTY" n :=
    ikey_ne_ikey (by decide) (by decide) n n
  simp [c1, c2]

theorem digitalGoodFields_get_ITEMCATEGORY_self (n : Nat)
    (g : PayPalDigitalGood) :
    Values.get (digitalGoodFields n g)
      (ikey "L_PAYMENTREQUEST_0_ITEMCATEGORY" n) = "Digital" := by
  rw [digitalGoodFields_get_eq]
  have c1 : ikey "L_PAYMENTREQUEST_0_NAME" n ≠
      ikey "L_PAYMENTREQUEST_0_ITEMCATEGORY" n :=
    ikey_ne_ikey (by decide) (by decide) n n
  have c2 : ikey "L_PAYMENTREQUEST_0_AMT" n ≠
      ikey "L_PAYMENTREQUEST_0_ITEMCATEGORY" n :=
    ikey_ne_ikey (by decide) (by decide) n n
  have c3 : ikey "L_PAYMENTREQUEST_0_QTY" n ≠
      ikey "L_PAYMENTREQUEST_0_ITEMCATEGORY" n :=
    ikey_ne_ikey (by decide) (by decide) n n
  simp [c1, c2, c3]

/-! ### Decomposition of the full builder outputs -/

theorem str_ne_ikey_head {k b : String} {x y : Char} {r t : List Char}
    (hk : k.data = x :: r) (hb : b.data = y :: t) (hxy : x ≠ y) (i : Nat) :
    k ≠ ikey b i := by
  apply str_ne_ikey _ i
  rintro ⟨s, hs⟩
  rw [hb, hk, List.cons_append] at hs
  exact hxy (List.head_eq_of_cons_eq hs).symm

theorem Values.countKey_singleton (p : String × String) (k : String) :
    Values.countKey [p] k = if p.1 = k then 1 else 0 := by
  rw [Values.countKey_cons, Values.countKey_nil, Nat.add_zero]

theorem Values.get_append_tail_irrelevant {l t : Values} {k : String}
    (h : ∀ p ∈ t, p.1 ≠ k) :
    Values.get (l ++ t) k = Values.get l k := by
  by_cases hc : Values.containsKey l k = true
  · exact Values.get_append_left t hc
  · have hf := Bool.eq_false_iff.mpr hc
    rw [Values.get_append_right t ((Values.containsKey_false_iff l k).mp hf),
      Values.get_eq_of_countKey_zero (Values.countKey_eq_zero h),
      Values.containsKey_eq_false hf]

/-- `SetExpressCheckout`'s built values, unfolded to fixed fields, the goods
loop, and (for positive discount) the three trailing discount fields. -/
theorem setExpressCheckoutValues_eq (order : PayPalOrder)
    (goods : List PayPalGood) :
    setExpressCheckoutValues order goods =
      if 0 < order.Discount then
        ((([("METHOD", "SetExpressCheckout"),
            ("PAYMENTREQUEST_0_ITEMAMT", fmt2 order.SubTotal),
            ("PAYMENTREQUEST_0_SHIPPINGAMT", fmt2 order.Shipping),
            ("PAYMENTREQUEST_0_AMT", fmt2 order.Total),
            ("PAYMENTREQUEST_0_PAYMENTACTION", "Sale"),
            ("PAYMENTREQUEST_0_CURRENCYCODE", order.CurrencyCode),
            ("RETURNURL", order.ReturnUrl),
            ("CANCELURL", order.CancelUrl),
            ("REQCONFIRMSHIPPING", "0"),
            ("NOSHIPPING", "1"),
            ("SOLUTIONTYPE", "Sole")] ++ goodsFields 0 goods) ++
          [(ikey "L_PAYMENTREQUEST_0_NAME" goods.length, "DISCOUNT")]) ++
          [(ikey "L_PAYMENTREQUEST_0_AMT" goods.length, fmt2 (-order.Discount))]) ++
          [(ikey "L_PAYMENTREQUEST_0_QTY" goods.length, "1")]
      else
        [("METHOD", "SetExpressCheckout"),
         ("PAYMENTREQUEST_0_ITEMAMT", fmt2 order.SubTotal),
         ("PAYMENTREQUEST_0_SHIPPINGAMT", fmt2 order.Shipping),
         ("PAYMENTREQUEST_0_AMT", fmt2 order.Total),
         ("PAYMENTREQUEST_0_PAYMENTACTION", "Sale"),
         ("PAYMENTREQUEST_0_CURRENCYCODE", order.CurrencyCode),
         ("RETURNURL", order.ReturnUrl),
         ("CANCELURL", order.CancelUrl),
         ("REQCONFIRMSHIPPING", "0"),
         ("NOSHIPPING", "1"),
         ("SOLUTIONTYPE", "Sole")] ++ goodsFields 0 goods := rfl

/-- `SetExpressCheckoutDigitalGoods`'s built values, unfolded. -/
theorem setExpressCheckoutDigitalGoodsValues_eq (paymentAmount : ℚ)
    (currencyCode returnURL cancelURL : String)
    (goods : List PayPalDigitalGood) :
    setExpressCheckoutDigitalGoodsValues paymentAmount currencyCode returnURL
        cancelURL goods =
      [("METHOD", "SetExpressCheckout"),
       ("PAYMENTREQUEST_0_AMT", fmt2 paymentAmount),
       ("PAYMENTREQUEST_0_PAYMENTACTION", "Sale"),
       ("PAYMENTREQUEST_0_CURRENCYCODE", currencyCode),
       ("RETURNURL", returnURL),
       ("CANCELURL", cancelURL),
       ("REQCONFIRMSHIPPING", "0"),
       ("NOSHIPPING", "1"),
       ("SOLUTIONTYPE", "Sole")] ++ digitalGoodsFields 0 goods := rfl

/-- The fixed fields of `SetExpressCheckout` hold no indexed key whose base
starts with `'L'`. -/
theorem setECBase_no_ikey (order : PayPalOrder) {b : String} {t : List Char}
    (hb : b.data = 'L' :: t) (i : Nat) :
    ∀ p ∈ ([("METHOD", "SetExpressCheckout"),
        ("PAYMENTREQUEST_0_ITEMAMT", fmt2 order.SubTotal),
        ("PAYMENTREQUEST_0_SHIPPINGAMT", fmt2 order.Shipping),
        ("PAYMENTREQUEST_0_AMT", fmt2 order.Total),
        ("PAYMENTREQUEST_0_PAYMENTACTION", "Sale"),
        ("PAYMENTREQUEST_0_CURRENCYCODE", order.CurrencyCode),
        ("RETURNURL", order.ReturnUrl),
        ("CANCELURL", order.CancelUrl),
        ("REQCONFIRMSHIPPING", "0"),
        ("NOSHIPPING", "1"),
        ("SOLUTIONTYPE", "Sole")] : Values), p.1 ≠ ikey b i := by
  intro p hp
  fin_cases hp <;> exact str_ne_ikey_head rfl hb (by decide) i

/-- The fixed fields of `SetExpressCheckoutDigitalGoods` hold no indexed key
whose base starts with `'L'`. -/
theorem setECDGBase_no_ikey (paymentAmount : ℚ)
    (currencyCode returnURL cancelURL : String) {b : String} {t : List Char}
    (hb : b.data = 'L' :: t) (i : Nat) :
    ∀ p ∈ ([("METHOD", "SetExpressCheckout"),
        ("PAYMENTREQUEST_0_AMT", fmt2 paymentAmount),
        ("PAYMENTREQUEST_0_PAYMENTACTION", "Sale"),
        ("PAYMENTREQUEST_0_CURRENCYCODE", currencyCode),
        ("RETURNURL", returnURL),
        ("CANCELURL", cancelURL),
        ("REQCONFIRMSHIPPING", "0"),
        ("NOSHIPPING", "1"),
        ("SOLUTIONTYPE", "Sole")] : Values), p.1 ≠ ikey b i := by
  intro p hp
  fin_cases hp <;> exact str_ne_ikey_head rfl hb (by decide) i

/-- For an indexed key distinct from the three discount keys, counting in
the full `SetExpressCheckout` values reduces to counting in the loop. -/
theorem setECValues_countKey_ikey (order : PayPalOrder)
    (goods : List PayPalGood) {b : String} {t : List Char}
    (hb : b.data = 'L' :: t) (i : Nat)
    (hd1 : ikey "L_PAYMENTREQUEST_0_NAME" goods.length ≠ ikey b i)
    (hd2 : ikey "L_PAYMENTREQUEST_0_AMT" goods.length ≠ ikey b i)
    (hd3 : ikey "L_PAYMENTREQUEST_0_QTY" goods.length ≠ ikey b i) :
    Values.countKey (setExpressCheckoutValues order goods) (ikey b i) =
      Values.countKey (goodsFields 0 goods) (ikey b i) := by
  rw [setExpressCheckoutValues_eq]
  by_cases hd : 0 < order.Discount
  · rw [if_pos hd]
    simp only [Values.countKey_append, Values.countKey_singleton,
      if_neg hd1, if_neg hd2, if_neg hd3,
      Values.countKey_eq_zero (setECBase_no_ikey order hb i)]
    omega
  · rw [if_neg hd, Values.countKey_append,
      Values.countKey_eq_zero (setECBase_no_ikey order hb i), Nat.zero_add]

/-- Same as `setECValues_countKey_ikey` for `Values.get`. -/
theorem setECValues_get_ikey (order : PayPalOrder)
    (goods : List PayPalGood) {b : String} {t : List Char}
    (hb : b.data = 'L' :: t) (i : Nat)
    (hd1 : ikey "L_PAYMENTREQUEST_0_NAME" goods.length ≠ ikey b i)
    (hd2 : ikey "L_PAYMENTREQUEST_0_AMT" goods.length ≠ ikey b i)
    (hd3 : ikey "L_PAYMENTREQUEST_0_QTY" goods.length ≠ ikey b i) :
    Values.get (setExpressCheckoutValues order goods) (ikey b i) =
      Values.get (goodsFields 0 goods) (ikey b i) := by
  rw [setExpressCheckoutValues_eq]
  by_cases hd : 0 < order.Discount
  · rw [if_pos hd, List.append_assoc, List.append_assoc, List.append_assoc,
      Values.get_append_right _ (setECBase_no_ikey order hb i),
      Values.get_append_tail_irrelevant]
    intro p hp
    rcases List.mem_append.mp hp with hp | hp
    · rw [List.mem_singleton.mp hp]; exact hd1
    · rcases List.mem_append.mp hp with hp | hp
      · rw [List.mem_singleton.mp hp]; exact hd2
      · rw [List.mem_singleton.mp hp]; exact hd3
  · rw [if_neg hd, Values.get_append_right _ (setECBase_no_ikey order hb i)]

/-- Same as `setECValues_countKey_ikey` for `Values.containsKey`. -/
theorem setECValues_containsKey_ikey (order : PayPalOrder)
    (goods : List PayPalGood) {b : String} {t : List Char}
    (hb : b.data = 'L' :: t) (i : Nat)
    (hd1 : ikey "L_PAYMENTREQUEST_0_NAME" goods.length ≠ ikey b i)
    (hd2 : ikey "L_PAYMENTREQUEST_0_AMT" goods.length ≠ ikey b i)
    (hd3 : ikey "L_PAYMENTREQUEST_0_QTY" goods.length ≠ ikey b i) :
    Values.containsKey (setExpressCheckoutValues order goods) (ikey b i) =
      Values.containsKey (goodsFields 0 goods) (ikey b i) := by
  rw [setExpressCheckoutValues_eq]
  by_cases hd : 0 < order.Discount
  · rw [if_pos hd]
    simp only [Values.containsKey_append]
    rw [(Values.containsKey_false_iff _ _).mpr (setECBase_no_ikey order hb i)]
    have h1 : Values.containsKey
        [(ikey "L_PAYMENTREQUEST_0_NAME" goods.length, "DISCOUNT")]
        (ikey b i) = false := by
      apply (Values.containsKey_false_iff _ _).mpr
      intro p hp
      rw [List.mem_singleton.mp hp]; exact hd1
    have h2 : Values.containsKey
        [(ikey "L_PAYMENTREQUEST_0_AMT" goods.length, fmt2 (-order.Discount))]
        (ikey b i) = false := by
      apply (Values.containsKey_false_iff _ _).mpr
      intro p hp
      rw [List.mem_singleton.mp hp]; exact hd2
    have h3 : Values.containsKey
        [(ikey "L_PAYMENTREQUEST_0_QTY" goods.length, "1")]
        (ikey b i) = false := by
      apply (Values.containsKey_false_iff _ _).mpr
      intro p hp
      rw [List.mem_singleton.mp hp]; exact hd3
    rw [h1, h2, h3]
    simp
  · rw [if_neg hd, Values.containsKey_append,
      (Values.containsKey_false_iff _ _).mpr (setECBase_no_ikey order hb i)]
    simp

/-- Same decomposition for the digital-goods builder (no discount part). -/
theorem setECDGValues_countKey_ikey (paymentAmount : ℚ)
    (currencyCode returnURL cancelURL : String)
    (goods : List PayPalDigitalGood) {b : String} {t : List Char}
    (hb : b.data = 'L' :: t) (i : Nat) :
    Values.countKey (setExpressCheckoutDigitalGoodsValues paymentAmount
        currencyCode returnURL cancelURL goods) (ikey b i) =
      Values.countKey (digitalGoodsFields 0 goods) (ikey b i) := by
  rw [setExpressCheckoutDigitalGoodsValues_eq, Values.countKey_append,
    Values.countKey_eq_zero
      (setECDGBase_no_ikey paymentAmount currencyCode returnURL cancelURL hb i),
    Nat.zero_add]

/-- Same as `setECDGValues_countKey_ikey` for `Values.get`. -/
theorem setECDGValues_get_ikey (paymentAmount : ℚ)
    (currencyCode returnURL cancelURL : String)
    (goods : List PayPalDigitalGood) {b : String} {t : List Char}
    (hb : b.data = 'L' :: t) (i : Nat) :
    Values.get (setExpressCheckoutDigitalGoodsValues paymentAmount
        currencyCode returnURL cancelURL goods) (ikey b i) =
      Values.get (digitalGoodsFields 0 goods) (ikey b i) := by
  rw [setExpressCheckoutDigitalGoodsValues_eq,
    Values.get_append_right _
      (setECDGBase_no_ikey paymentAmount currencyCode returnURL cancelURL hb i)]

/-! ### Per-item facts on the full builder outputs -/

theorem setEC_countKey_NAME (order : PayPalOrder) (goods : List PayPalGood)
    (i : Nat) (h : i < goods.length) :
    Values.countKey (setExpressCheckoutValues order goods)
      (ikey "L_PAYMENTREQUEST_0_NAME" i) = 1 := by
  rw [setECValues_countKey_ikey order goods rfl i
    (fun he => absurd (ikey_inj he) (by omega))
    (ikey_ne_ikey (by decide) (by decide) goods.length i)
    (ikey_ne_ikey (by decide) (by decide) goods.length i)]
  have := indexedBlocks_countKey goodFields_other_NAME 0 goods i h
  rw [Nat.zero_add] at this
  rw [goodsFields, this, goodFields_count_NAME_self]

theorem setEC_get_NAME (order : PayPalOrder) (goods : List PayPalGood)
    (i : Nat) (h : i < goods.length) :
    Values.get (setExpressCheckoutValues order goods)
      (ikey "L_PAYMENTREQUEST_0_NAME" i) = (goods.get ⟨i, h⟩).Name := by
  rw [setECValues_get_ikey order goods rfl i
    (fun he => absurd (ikey_inj he) (by omega))
    (ikey_ne_ikey (by decide) (by decide) goods.length i)
    (ikey_ne_ikey (by decide) (by decide) goods.length i)]
  have := indexedBlocks_get goodFields_other_NAME 0 goods i h
  rw [Nat.zero_add] at this
  rw [goodsFields, this, goodFields_get_NAME_self]

theorem setEC_get_AMT (order : PayPalOrder) (goods : List PayPalGood)
    (i : Nat) (h : i < goods.length) :
    Values.get (setExpressCheckoutValues order goods)
      (ikey "L_PAYMENTREQUEST_0_AMT" i) = fmt2 (goods.get ⟨i, h⟩).Amount := by
  rw [setECValues_get_ikey order goods rfl i
    (ikey_ne_ikey (by decide) (by decide) goods.length i)
    (fun he => absurd (ikey_inj he) (by omega))
    (ikey_ne_ikey (by decide) (by decide) goods.length i)]
  have := indexedBlocks_get goodFields_other_AMT 0 goods i h
  rw [Nat.zero_add] at this
  rw [goodsFields, this, goodFields_get_AMT_self]

theorem setEC_get_QTY (order : PayPalOrder) (goods : List PayPalGood)
    (i : Nat) (h : i < goods.length) :
    Values.get (setExpressCheckoutValues order goods)
      (ikey "L_PAYMENTREQUEST_0_QTY" i) =
      intRepr (goods.get ⟨i, h⟩).Quantity := by
  rw [setECValues_get_ikey order goods rfl i
    (ikey_ne_ikey (by decide) (by decide) goods.length i)
    (ikey_ne_ikey (by decide) (by decide) goods.length i)
    (fun he => absurd (ikey_inj he) (by omega))]
  have := indexedBlocks_get goodFields_other_QTY 0 goods i h
  rw [Nat.zero_add] at this
  rw [goodsFields, this, goodFields_get_QTY_self]

theorem setEC_containsKey_NUMBER (order : PayPalOrder)
    (goods : List PayPalGood) (i : Nat) (h : i < goods.length) :
    (Values.containsKey (setExpressCheckoutValues order goods)
      (ikey "L_PAYMENTREQUEST_0_NUMBER" i) = true) ↔
      (goods.get ⟨i, h⟩).Id ≠ "" := by
  rw [setECValues_containsKey_ikey order goods rfl i
    (ikey_ne_ikey (by decide) (by decide) goods.length i)
    (ikey_ne_ikey (by decide) (by decide) goods.length i)
    (ikey_ne_ikey (by decide) (by decide) goods.length i)]
  have := indexedBlocks_containsKey goodFields_other_NUMBER 0 goods i h
  rw [Nat.zero_add] at this
  rw [goodsFields, this, goodFields_containsKey_NUMBER_self]

theorem setECDG_countKey_NAME (paymentAmount : ℚ)
    (currencyCode returnURL cancelURL : String)
    (goods : List PayPalDigitalGood) (i : Nat) (h : i < goods.length) :
    Values.countKey (setExpressCheckoutDigitalGoodsValues paymentAmount
      currencyCode returnURL cancelURL goods)
      (ikey "L_PAYMENTREQUEST_0_NAME" i) = 1 := by
  rw [setECDGValues_countKey_ikey paymentAmount currencyCode returnURL
    cancelURL goods rfl i]
  have := indexedBlocks_countKey digitalGoodFields_other_NAME 0 goods i h
  rw [Nat.zero_add] at this
  rw [digitalGoodsFields, this, digitalGoodFields_count_NAME_self]

theorem setECDG_get_NAME (paymentAmount : ℚ)
    (currencyCode returnURL cancelURL : String)
    (goods : List PayPalDigitalGood) (i : Nat) (h : i < goods.length) :
    Values.get (setExpressCheckoutDigitalGoodsValues paymentAmount
      currencyCode returnURL cancelURL goods)
      (ikey "L_PAYMENTREQUEST_0_NAME" i) = (goods.get ⟨i, h⟩).Name := by
  rw [setECDGValues_get_ikey paymentAmount currencyCode returnURL
    cancelURL goods rfl i]
  have := indexedBlocks_get digitalGoodFields_other_NAME 0 goods i h
  rw [Nat.zero_add] at this
  rw [digitalGoodsFields, this, digitalGoodFields_get_NAME_self]

theorem setECDG_get_AMT (paymentAmount : ℚ)
    (currencyCode returnURL cancelURL : String)
    (goods : List PayPalDigitalGood) (i : Nat) (h : i < goods.length) :
    Values.get (setExpressCheckoutDigitalGoodsValues paymentAmount
      currencyCode returnURL cancelURL goods)
      (ikey "L_PAYMENTREQUEST_0_AMT" i) = fmt2 (goods.get ⟨i, h⟩).Amount := by
  rw [setECDGValues_get_ikey paymentAmount currencyCode returnURL
    cancelURL goods rfl i]
  have := indexedBlocks_get digitalGoodFields_other_AMT 0 goods i h
  rw [Nat.zero_add] at this
  rw [digitalGoodsFields, this, digitalGoodFields_get_AMT_self]

theorem setECDG_get_QTY (paymentAmount : ℚ)
    (currencyCode returnURL cancelURL : String)
    (goods : List PayPalDigitalGood) (i : Nat) (h : i < goods.length) :
    Values.get (setExpressCheckoutDigitalGoodsValues paymentAmount
      currencyCode returnURL cancelURL goods)
      (ikey "L_PAYMENTREQUEST_0_QTY" i) =
      intRepr (goods.get ⟨i, h⟩).Quantity := by
  rw [setECDGValues_get_ikey paymentAmount currencyCode returnURL
    cancelURL goods rfl i]
  have := indexedBlocks_get digitalGoodFields_other_QTY 0 goods i h
  rw [Nat.zero_add] at this
  rw [digitalGoodsFields, this, digitalGoodFields_get_QTY_self]

theorem setECDG_get_ITEMCATEGORY (paymentAmount : ℚ)
    (currencyCode returnURL cancelURL : String)
    (goods : List PayPalDigitalGood) (i : Nat) (h : i < goods.length) :
    Values.get (setExpressCheckoutDigitalGoodsValues paymentAmount
      currencyCode returnURL cancelURL goods)
      (ikey "L_PAYMENTREQUEST_0_ITEMCATEGORY" i) = "Digital" := by
  rw [setECDGValues_get_ikey paymentAmount currencyCode returnURL
    cancelURL goods rfl i]
  have := indexedBlocks_get digitalGoodFields_other_ITEMCATEGORY 0 goods i h
  rw [Nat.zero_add] at this
  rw [digitalGoodsFields, this, digitalGoodFields_get_ITEMCATEGORY_self]

/-! ### The synthetic DISCOUNT line item -/

theorem suffix3 (B : Values) (d1 d2 d3 : String × String) :
    List.IsSuffix [d1, d2, d3] (((B ++ [d1]) ++ [d2]) ++ [d3]) :=
  ⟨B, by simp⟩

theorem setEC_loop_countKey_NAME_out (goods : List PayPalGood) :
    Values.countKey (goodsFields 0 goods)
      (ikey "L_PAYMENTREQUEST_0_NAME" goods.length) = 0 := by
  rw [goodsFields]
  exact indexedBlocks_countKey_zero goodFields_other_NAME 0 goods goods.length
    (by intro i hi; omega)

theorem setEC_loop_countKey_AMT_out (goods : List PayPalGood) :
    Values.countKey (goodsFields 0 goods)
      (ikey "L_PAYMENTREQUEST_0_AMT" goods.length) = 0 := by
  rw [goodsFields]
  exact indexedBlocks_countKey_zero goodFields_other_AMT 0 goods goods.length
    (by intro i hi; omega)

theorem setEC_loop_countKey_QTY_out (goods : List PayPalGood) :
    Values.countKey (goodsFields 0 goods)
      (ikey "L_PAYMENTREQUEST_0_QTY" goods.length) = 0 := by
  rw [goodsFields]
  exact indexedBlocks_countKey_zero goodFields_other_QTY 0 goods goods.length
    (by intro i hi; omega)

theorem setEC_discount_countKey_NAME (order : PayPalOrder)
    (goods : List PayPalGood) (hd : 0 < order.Discount) :
    Values.countKey (setExpressCheckoutValues order goods)
      (ikey "L_PAYMENTREQUEST_0_NAME" goods.length) = 1 := by
  rw [setExpressCheckoutValues_eq, if_pos hd]
  simp only [Values.countKey_append, Values.countKey_singleton]
  rw [Values.countKey_eq_zero (setECBase_no_ikey order rfl goods.length),
    setEC_loop_countKey_NAME_out,
    if_neg (ikey_ne_ikey (by decide) (by decide) goods.length goods.length),
    if_neg (ikey_ne_ikey (by decide) (by decide) goods.length goods.length)]
  simp

theorem setEC_no_discount_countKey_NAME (order : PayPalOrder)
    (goods : List PayPalGood) (hd : order.Discount ≤ 0) :
    Values.countKey (setExpressCheckoutValues order goods)
      (ikey "L_PAYMENTREQUEST_0_NAME" goods.length) = 0 := by
  rw [setExpressCheckoutValues_eq, if_neg (not_lt.mpr hd),
    Values.countKey_append,
    Values.countKey_eq_zero (setECBase_no_ikey order rfl goods.length),
    setEC_loop_countKey_NAME_out]

theorem setEC_discount_suffix (order : PayPalOrder) (goods : List PayPalGood)
    (hd : 0 < order.Discount) :
    List.IsSuffix
      [(ikey "L_PAYMENTREQUEST_0_NAME" goods.length, "DISCOUNT"),
       (ikey "L_PAYMENTREQUEST_0_AMT" goods.length, fmt2 (-order.Discount)),
       (ikey "L_PAYMENTREQUEST_0_QTY" goods.length, "1")]
      (setExpressCheckoutValues order goods) := by
  rw [setExpressCheckoutValues_eq, if_pos hd]
  exact suffix3 _ _ _ _

theorem setEC_discount_get_NAME (order : PayPalOrder)
    (goods : List PayPalGood) (hd : 0 < order.Discount) :
    Values.get (setExpressCheckoutValues order goods)
      (ikey "L_PAYMENTREQUEST_0_NAME" goods.length) = "DISCOUNT" := by
  rw [setExpressCheckoutValues_eq, if_pos hd, List.append_assoc,
    List.append_assoc, List.append_assoc,
    Values.get_append_right _ (setECBase_no_ikey order rfl goods.length),
    Values.get_append_right _
      ((Values.countKey_zero_iff _ _).mp (setEC_loop_countKey_NAME_out goods)),
    List.singleton_append, Values.get_cons, if_pos rfl]

theorem setEC_discount_get_AMT (order : PayPalOrder)
    (goods : List PayPalGood) (hd : 0 < order.Discount) :
    Values.get (setExpressCheckoutValues order goods)
      (ikey "L_PAYMENTREQUEST_0_AMT" goods.length) =
      fmt2 (-order.Discount) := by
  rw [setExpressCheckoutValues_eq, if_pos hd, List.append_assoc,
    List.append_assoc, List.append_assoc,
    Values.get_append_right _ (setECBase_no_ikey order rfl goods.length),
    Values.get_append_right _
      ((Values.countKey_zero_iff _ _).mp (setEC_loop_countKey_AMT_out goods)),
    List.singleton_append, Values.get_cons,
    if_neg (ikey_ne_ikey (by decide) (by decide) goods.length goods.length),
    List.singleton_append, Values.get_cons, if_pos rfl]

theorem setEC_discount_get_QTY (order : PayPalOrder)
    (goods : List PayPalGood) (hd : 0 < order.Discount) :
    Values.get (setExpressCheckoutValues order goods)
      (ikey "L_PAYMENTREQUEST_0_QTY" goods.length) = "1" := by
  rw [setExpressCheckoutValues_eq, if_pos hd, List.append_assoc,
    List.append_assoc, List.append_assoc,
    Values.get_append_right _ (setECBase_no_ikey order rfl goods.length),
    Values.get_append_right _
      ((Values.countKey_zero_iff _ _).mp (setEC_loop_countKey_QTY_out goods)),
    List.singleton_append, Values.get_cons,
    if_neg (ikey_ne_ikey (by decide) (by decide) goods.length goods.length),
    List.singleton_append, Values.get_cons,
    if_neg (ikey_ne_ikey (by decide) (by decide) goods.length goods.length),
    Values.get_cons, if_pos rfl]

/-- Claim C2: if `order.Discount > 0`, exactly one synthetic line item named
`DISCOUNT` is appended after all real items, at index `goodsCount`, with
amount `fmt2 (−discount)` and quantity `"1"`; if the discount is not
positive, no such item appears. -/
theorem claim_C2_discount_line_item (order : PayPalOrder)
    (goods : List PayPalGood) :
    (0 < order.Discount →
      Values.countKey (setExpressCheckoutValues order goods)
        (ikey "L_PAYMENTREQUEST_0_NAME" goods.length) = 1 ∧
      List.IsSuffix
        [(ikey "L_PAYMENTREQUEST_0_NAME" goods.length, "DISCOUNT"),
         (ikey "L_PAYMENTREQUEST_0_AMT" goods.length, fmt2 (-order.Discount)),
         (ikey "L_PAYMENTREQUEST_0_QTY" goods.length, "1")]
        (setExpressCheckoutValues order goods) ∧
      Values.get (setExpressCheckoutValues order goods)
        (ikey "L_PAYMENTREQUEST_0_NAME" goods.length) = "DISCOUNT" ∧
      Values.get (setExpressCheckoutValues order goods)
        (ikey "L_PAYMENTREQUEST_0_AMT" goods.length) =
          fmt2 (-order.Discount) ∧
      Values.get (setExpressCheckoutValues order goods)
        (ikey "L_PAYMENTREQUEST_0_QTY" goods.length) = "1") ∧
    (order.Discount ≤ 0 →
      Values.countKey (setExpressCheckoutValues order goods)
        (ikey "L_PAYMENTREQUEST_0_NAME" goods.length) = 0) :=
  ⟨fun hd => ⟨setEC_discount_countKey_NAME order goods hd,
      setEC_discount_suffix order goods hd,
      setEC_discount_get_NAME order goods hd,
      setEC_discount_get_AMT order goods hd,
      setEC_discount_get_QTY order goods hd⟩,
   fun hd => setEC_no_discount_countKey_NAME order goods hd⟩

/-- Witness for C2 at a discounted one-item order and an undiscounted one. -/
theorem claim_C2_discount_line_item_witness :
    ((0 : ℚ) < 1 ∧
      Values.get (setExpressCheckoutValues ⟨20, 5, 1, 24, "USD", "r", "c"⟩
          [⟨"sku1", "Widget", 20, 1⟩])
        (ikey "L_PAYMENTREQUEST_0_NAME" 1) = "DISCOUNT") ∧
    ((0 : ℚ) ≤ 0 ∧
      Values.countKey (setExpressCheckoutValues ⟨20, 5, 0, 25, "USD", "r", "c"⟩
          [⟨"sku1", "Widget", 20, 1⟩])
        (ikey "L_PAYMENTREQUEST_0_NAME" 1) = 0) :=
  ⟨⟨by decide,
    ((claim_C2_discount_line_item ⟨20, 5, 1, 24, "USD", "r", "c"⟩
      [⟨"sku1", "Widget", 20, 1⟩]).1 (by decide)).2.2.1⟩,
   ⟨by decide,
    (claim_C2_discount_line_item ⟨20, 5, 0, 25, "USD", "r", "c"⟩
      [⟨"sku1", "Widget", 20, 1⟩]).2 (by decide)⟩⟩

/-- Claim C3: each builder serialises one `L_PAYMENTREQUEST_0_NAME{i}` field
per list element at 0-based contiguous indices, accompanied by the
two-decimal amount and the quantity at the same index; a physical item
emits `L_PAYMENTREQUEST_0_NUMBER{i}` exactly when its identifier is
non-empty, and every digital item emits
`L_PAYMENTREQUEST_0_ITEMCATEGORY{i} = "Digital"`. -/
theorem claim_C3_line_item_serialization :
    (∀ (order : PayPalOrder) (goods : List PayPalGood) (i : Nat)
      (h : i < goods.length),
      Values.countKey (setExpressCheckoutValues order goods)
        (ikey "L_PAYMENTREQUEST_0_NAME" i) = 1 ∧
      Values.get (setExpressCheckoutValues order goods)
        (ikey "L_PAYMENTREQUEST_0_NAME" i) = (goods.get ⟨i, h⟩).Name ∧
      Values.get (setExpressCheckoutValues order goods)
        (ikey "L_PAYMENTREQUEST_0_AMT" i) = fmt2 (goods.get ⟨i, h⟩).Amount ∧
      Values.get (setExpressCheckoutValues order goods)
        (ikey "L_PAYMENTREQUEST_0_QTY" i) =
          intRepr (goods.get ⟨i, h⟩).Quantity ∧
      ((Values.containsKey (setExpressCheckoutValues order goods)
        (ikey "L_PAYMENTREQUEST_0_NUMBER" i) = true) ↔
          (goods.get ⟨i, h⟩).Id ≠ "")) ∧
    (∀ (paymentAmount : ℚ) (currencyCode returnURL cancelURL : String)
      (goods : List PayPalDigitalGood) (i : Nat) (h : i < goods.length),
      Values.countKey (setExpressCheckoutDigitalGoodsValues paymentAmount
        currencyCode returnURL cancelURL goods)
        (ikey "L_PAYMENTREQUEST_0_NAME" i) = 1 ∧
      Values.get (setExpressCheckoutDigitalGoodsValues paymentAmount
        currencyCode returnURL cancelURL goods)
        (ikey "L_PAYMENTREQUEST_0_NAME" i) = (goods.get ⟨i, h⟩).Name ∧
      Values.get (setExpressCheckoutDigitalGoodsValues paymentAmount
        currencyCode returnURL cancelURL goods)
        (ikey "L_PAYMENTREQUEST_0_AMT" i) = fmt2 (goods.get ⟨i, h⟩).Amount ∧
      Values.get (setExpressCheckoutDigitalGoodsValues paymentAmount
        currencyCode returnURL cancelURL goods)
        (ikey "L_PAYMENTREQUEST_0_QTY" i) =
          intRepr (goods.get ⟨i, h⟩).Quantity ∧
      Values.get (setExpressCheckoutDigitalGoodsValues paymentAmount
        currencyCode returnURL cancelURL goods)
        (ikey "L_PAYMENTREQUEST_0_ITEMCATEGORY" i) = "Digital") :=
  ⟨fun order goods i h =>
    ⟨setEC_countKey_NAME order goods i h,
     setEC_get_NAME order goods i h,
     setEC_get_AMT order goods i h,
     setEC_get_QTY order goods i h,
     setEC_containsKey_NUMBER order goods i h⟩,
   fun pa cc ru cu goods i h =>
    ⟨setECDG_countKey_NAME pa cc ru cu goods i h,
     setECDG_get_NAME pa cc ru cu goods i h,
     setECDG_get_AMT pa cc ru cu goods i h,
     setECDG_get_QTY pa cc ru cu goods i h,
     setECDG_get_ITEMCATEGORY pa cc ru cu goods i h⟩⟩

/-- Witness for C3 at one-element physical and digital goods lists. -/
theorem claim_C3_line_item_serialization_witness :
    (0 < ([⟨"sku1", "Widget", 20, 2⟩] : List PayPalGood).length ∧
      Values.get (setExpressCheckoutValues ⟨40, 0, 0, 40, "USD", "r", "c"⟩
          [⟨"sku1", "Widget", 20, 2⟩])
        (ikey "L_PAYMENTREQUEST_0_NAME" 0) = "Widget") ∧
    (0 < ([⟨"Song", 5, 1⟩] : List PayPalDigitalGood).length ∧
      Values.get (setExpressCheckoutDigitalGoodsValues 5 "USD" "r" "c"
          [⟨"Song", 5, 1⟩])
        (ikey "L_PAYMENTREQUEST_0_ITEMCATEGORY" 0) = "Digital") :=
  ⟨⟨by decide,
    (claim_C3_line_item_serialization.1 ⟨40, 0, 0, 40, "USD", "r", "c"⟩
      [⟨"sku1", "Widget", 20, 2⟩] 0 (by decide)).2.1⟩,
   ⟨by decide,
    (claim_C3_line_item_serialization.2 5 "USD" "r" "c"
      [⟨"Song", 5, 1⟩] 0 (by decide)).2.2.2.2⟩⟩

/-! ### Two-decimal structure of formatted amounts -/

theorem natRepr_data_small {n : Nat} (h : n < 10) :
    (natRepr n).data = [digitChar n] := by
  show natDigitsF (n + 1) n = [digitChar n]
  simp only [natDigitsF]
  rw [if_pos h]

theorem natRepr_data_two {n : Nat} (h10 : 10 ≤ n) (h100 : n < 100) :
    (natRepr n).data = [digitChar (n / 10), digitChar (n % 10)] := by
  obtain ⟨m, rfl⟩ : ∃ m, n = m + 1 := ⟨n - 1, by omega⟩
  show natDigitsF (m + 1 + 1) (m + 1) = _
  simp only [natDigitsF]
  rw [if_neg (by omega), if_pos (by omega)]
  rfl

theorem fmt2_decimal_structure (x : ℚ) :
    ∃ t u : List Char, (fmt2 x).data = t ++ '.' :: u ∧ u.length = 2 ∧
      (∀ c ∈ u, c.isDigit = true) ∧ '.' ∉ t := by
  refine ⟨(if x.num < 0 then "-" else "").data ++
      (natRepr (rhe (100 * x.num.natAbs) x.den / 100)).data,
    (if rhe (100 * x.num.natAbs) x.den % 100 < 10 then
        "0" ++ natRepr (rhe (100 * x.num.natAbs) x.den % 100)
      else natRepr (rhe (100 * x.num.natAbs) x.den % 100)).data,
    ?_, ?_, ?_, ?_⟩
  · rw [fmt2, String.data_append, fmt2abs, String.data_append,
      String.data_append]
    simp [List.append_assoc]
  · by_cases h : rhe (100 * x.num.natAbs) x.den % 100 < 10
    · rw [if_pos h, String.data_append, natRepr_data_small h]
      rfl
    · rw [if_neg h, natRepr_data_two (by omega) (by omega)]
      rfl
  · intro c hc
    by_cases h : rhe (100 * x.num.natAbs) x.den % 100 < 10
    · rw [if_pos h] at hc
      simp [String.data_append, natRepr_data_small h] at hc
      rcases hc with rfl | rfl
      · decide
      · exact digitChar_isDigit h
    · rw [if_neg h] at hc
      simp [natRepr_data_two (show 10 ≤ rhe (100 * x.num.natAbs) x.den % 100 by omega)
        (show rhe (100 * x.num.natAbs) x.den % 100 < 100 by omega)] at hc
      rcases hc with rfl | rfl
      · exact digitChar_isDigit (by omega)
      · exact digitChar_isDigit (by omega)
  · intro hdot
    rcases List.mem_append.mp hdot with hc | hc
    · by_cases hx : x.num < 0
      · rw [if_pos hx] at hc
        exact absurd hc (by decide)
      · rw [if_neg hx] at hc
        exact absurd hc (by decide)
    · exact absurd (natRepr_isDigit _ '.' hc) (by decide)

/-! ### Top-level amount fields -/

theorem setEC_get_top_AMT (order : PayPalOrder) (goods : List PayPalGood) :
    Values.get (setExpressCheckoutValues order goods) "PAYMENTREQUEST_0_AMT" =
      fmt2 order.Total := by
  rw [setExpressCheckoutValues_eq]
  by_cases hd : 0 < order.Discount
  · rw [if_pos hd]
    simp [Values.get_cons, List.append_assoc]
  · rw [if_neg hd]
    simp [Values.get_cons]

theorem setEC_get_top_ITEMAMT (order : PayPalOrder) (goods : List PayPalGood) :
    Values.get (setExpressCheckoutValues order goods)
      "PAYMENTREQUEST_0_ITEMAMT" = fmt2 order.SubTotal := by
  rw [setExpressCheckoutValues_eq]
  by_cases hd : 0 < order.Discount
  · rw [if_pos hd]
    simp [Values.get_cons, List.append_assoc]
  · rw [if_neg hd]
    simp [Values.get_cons]

theorem setEC_get_top_SHIPPINGAMT (order : PayPalOrder)
    (goods : List PayPalGood) :
    Values.get (setExpressCheckoutValues order goods)
      "PAYMENTREQUEST_0_SHIPPINGAMT" = fmt2 order.Shipping := by
  rw [setExpressCheckoutValues_eq]
  by_cases hd : 0 < order.Discount
  · rw [if_pos hd]
    simp [Values.get_cons, List.append_assoc]
  · rw [if_neg hd]
    simp [Values.get_cons]

theorem setECDG_get_top_AMT (paymentAmount : ℚ)
    (currencyCode returnURL cancelURL : String)
    (goods : List PayPalDigitalGood) :
    Values.get (setExpressCheckoutDigitalGoodsValues paymentAmount
      currencyCode returnURL cancelURL goods) "PAYMENTREQUEST_0_AMT" =
      fmt2 paymentAmount := by
  rw [setExpressCheckoutDigitalGoodsValues_eq]
  simp [Values.get_cons]

theorem doECP_get_AMT (token payerId paymentType currencyCode : String)
    (finalPaymentAmount : ℚ) :
    Values.get (doExpressCheckoutPaymentValues token payerId paymentType
      currencyCode finalPaymentAmount) "PAYMENTREQUEST_0_AMT" =
      fmt2 finalPaymentAmount := by
  simp [doExpressCheckoutPaymentValues, Values.set, Values.add,
    Values.get_cons]

/-- Claim C9: every monetary amount field the builders emit — the top-level
`PAYMENTREQUEST_0_AMT`/`ITEMAMT`/`SHIPPINGAMT`, every per-item
`L_PAYMENTREQUEST_0_AMT{i}`, and the discount line's amount — is produced
by the `%.2f` model, which always renders exactly two decimal digits after
the (unique) decimal point; `19.999` rounds to `"20.00"`. -/
theorem claim_C9_two_decimal_amounts :
    (∀ x : ℚ, ∃ t u : List Char, (fmt2 x).data = t ++ '.' :: u ∧
      u.length = 2 ∧ (∀ c ∈ u, c.isDigit = true) ∧ '.' ∉ t) ∧
    fmt2 ((19999 : ℚ) / 1000) = "20.00" ∧
    (∀ (order : PayPalOrder) (goods : List PayPalGood),
      Values.get (setExpressCheckoutValues order goods)
        "PAYMENTREQUEST_0_AMT" = fmt2 order.Total ∧
      Values.get (setExpressCheckoutValues order goods)
        "PAYMENTREQUEST_0_ITEMAMT" = fmt2 order.SubTotal ∧
      Values.get (setExpressCheckoutValues order goods)
        "PAYMENTREQUEST_0_SHIPPINGAMT" = fmt2 order.Shipping) ∧
    (∀ (paymentAmount : ℚ) (currencyCode returnURL cancelURL : String)
      (goods : List PayPalDigitalGood),
      Values.get (setExpressCheckoutDigitalGoodsValues paymentAmount
        currencyCode returnURL cancelURL goods) "PAYMENTREQUEST_0_AMT" =
        fmt2 paymentAmount) ∧
    (∀ (token payerId paymentType currencyCode : String) (amt : ℚ),
      Values.get (doExpressCheckoutPaymentValues token payerId paymentType
        currencyCode amt) "PAYMENTREQUEST_0_AMT" = fmt2 amt) ∧
    (∀ (order : PayPalOrder) (goods : List PayPalGood) (i : Nat)
      (h : i < goods.length),
      Values.get (setExpressCheckoutValues order goods)
        (ikey "L_PAYMENTREQUEST_0_AMT" i) = fmt2 (goods.get ⟨i, h⟩).Amount) ∧
    (∀ (paymentAmount : ℚ) (currencyCode returnURL cancelURL : String)
      (goods : List PayPalDigitalGood) (i : Nat) (h : i < goods.length),
      Values.get (setExpressCheckoutDigitalGoodsValues paymentAmount
        currencyCode returnURL cancelURL goods)
        (ikey "L_PAYMENTREQUEST_0_AMT" i) = fmt2 (goods.get ⟨i, h⟩).Amount) ∧
    (∀ (order : PayPalOrder) (goods : List PayPalGood),
      0 < order.Discount →
      Values.get (setExpressCheckoutValues order goods)
        (ikey "L_PAYMENTREQUEST_0_AMT" goods.length) =
        fmt2 (-order.Discount)) := by
  refine ⟨fmt2_decimal_structure, ?_,
    fun order goods => ⟨setEC_get_top_AMT order goods,
      setEC_get_top_ITEMAMT order goods, setEC_get_top_SHIPPINGAMT order goods⟩,
    setECDG_get_top_AMT, doECP_get_AMT, setEC_get_AMT, setECDG_get_AMT,
    setEC_discount_get_AMT⟩
  have h : ((19999 : ℚ) / 1000) = ⟨19999, 1000, by decide, by decide⟩ := by
    rw [Rat.mk'_eq_divInt, Rat.divInt_eq_div]
    norm_num
  rw [h]
  rfl

/-- Witness for C9 at a one-item physical order with a discount and a
one-item digital checkout. -/
theorem claim_C9_two_decimal_amounts_witness :
    (0 < ([⟨"sku1", "Widget", 20, 1⟩] : List PayPalGood).length ∧
      Values.get (setExpressCheckoutValues ⟨20, 0, 1, 19, "USD", "r", "c"⟩
          [⟨"sku1", "Widget", 20, 1⟩])
        (ikey "L_PAYMENTREQUEST_0_AMT" 0) = fmt2 (20 : ℚ)) ∧
    ((0 : ℚ) < 1 ∧
      Values.get (setExpressCheckoutValues ⟨20, 0, 1, 19, "USD", "r", "c"⟩
          [⟨"sku1", "Widget", 20, 1⟩])
        (ikey "L_PAYMENTREQUEST_0_AMT" 1) = fmt2 (-(1 : ℚ))) ∧
    (0 < ([⟨"Song", 5, 1⟩] : List PayPalDigitalGood).length ∧
      Values.get (setExpressCheckoutDigitalGoodsValues 5 "USD" "r" "c"
          [⟨"Song", 5, 1⟩])
        (ikey "L_PAYMENTREQUEST_0_AMT" 0) = fmt2 (5 : ℚ)) :=
  ⟨⟨by decide,
    claim_C9_two_decimal_amounts.2.2.2.2.2.1 ⟨20, 0, 1, 19, "USD", "r", "c"⟩
      [⟨"sku1", "Widget", 20, 1⟩] 0 (by decide)⟩,
   ⟨by decide,
    claim_C9_two_decimal_amounts.2.2.2.2.2.2.2 ⟨20, 0, 1, 19, "USD", "r", "c"⟩
      [⟨"sku1", "Widget", 20, 1⟩] (by decide)⟩,
   ⟨by decide,
    claim_C9_two_decimal_amounts.2.2.2.2.2.2.1 5 "USD" "r" "c"
      [⟨"Song", 5, 1⟩] 0 (by decide)⟩⟩

end GoPayPal
